import Mathlib

/-!
Verification development for the bookstore chatbot backend
(`backend_library/app`): a shallow embedding in Lean 4 of the intent
resolver (`app/ai/semantic.py`, `app/ai/llm.py`), the entity resolver and
orchestrator (`app/flow/orchestrator.py`), and the action flow engine
(`app/flow/graph.py`), together with theorems about the embedded
definitions.

Modelling conventions:
* Python floats (similarity scores, prices, totals) are modelled as `ℚ`.
* SQLAlchemy rows are records; the async session is a pair of database
  snapshots (`committed`, `current`): reads see `current`, mutations
  update `current`, `commit` copies `current` into `committed`, and
  `rollback` copies `committed` back into `current`.
* Environment-dependent behaviour (the payment coin flip, LLM/provider
  outcomes, database-driver faults, commit failures) is supplied by an
  explicit oracle record `Env`, so runs quantify over those outcomes.
* Regex- and ML-based text helpers that the claims treat as given
  (`_check_help_query`, `_is_domain_relevant`, `_extract_keywords`,
  `_extract_number`, the sentence-transformer scores) are supplied as
  oracle inputs (`ResolverOracle`), while every decision made on their
  results is translated concretely from the source.
-/

namespace BookStore

/-- Stable insertion of `a` into a list sorted descending by key `f`:
`a` is placed before the first element whose key is `≤ f a`, which mirrors
the stable behaviour of Python's `list.sort(key=..., reverse=True)`
(earlier elements come first among equal keys when built by `sortDescBy`). -/
def insertDescBy {α β : Type} [LinearOrder β] (f : α → β) (a : α) : List α → List α
  | [] => [a]
  | b :: bs => if f b ≤ f a then a :: b :: bs else b :: insertDescBy f a bs

/-- Stable descending sort by key `f`, modelling Python's
`sorted(..., key=f, reverse=True)` / `list.sort(key=f, reverse=True)`. -/
def sortDescBy {α β : Type} [LinearOrder β] (f : α → β) (l : List α) : List α :=
  l.foldr (insertDescBy f) []

theorem mem_insertDescBy {α β : Type} [LinearOrder β] (f : α → β) (a x : α)
    (l : List α) : x ∈ insertDescBy f a l ↔ x = a ∨ x ∈ l := by
  induction l with
  | nil => simp [insertDescBy]
  | cons b bs ih =>
    simp only [insertDescBy]
    split
    · simp [List.mem_cons]
    · simp only [List.mem_cons, ih]
      tauto

theorem mem_sortDescBy {α β : Type} [LinearOrder β] (f : α → β) (x : α)
    (l : List α) : x ∈ sortDescBy f l ↔ x ∈ l := by
  induction l with
  | nil => simp [sortDescBy]
  | cons b bs ih =>
    simp only [sortDescBy, List.foldr] at *
    rw [mem_insertDescBy, ih, List.mem_cons]

theorem pairwise_insertDescBy {α β : Type} [LinearOrder β] (f : α → β) (a : α) :
    ∀ l : List α, l.Pairwise (fun x y => f y ≤ f x) →
      (insertDescBy f a l).Pairwise (fun x y => f y ≤ f x)
  | [], _ => by simp [insertDescBy]
  | c :: cs, h => by
    rcases List.pairwise_cons.mp h with ⟨hc, hcs⟩
    simp only [insertDescBy]
    split
    · next hle =>
      refine List.pairwise_cons.mpr ⟨?_, h⟩
      intro x hx
      rcases List.mem_cons.mp hx with rfl | hx
      · exact hle
      · exact le_trans (hc x hx) hle
    · next hgt =>
      refine List.pairwise_cons.mpr ⟨?_, pairwise_insertDescBy f a cs hcs⟩
      intro x hx
      rcases (mem_insertDescBy f a x cs).mp hx with rfl | hx
      · exact le_of_not_le hgt
      · exact hc x hx

/-- `sortDescBy` produces a list whose every element's key is bounded by
the key of any earlier element. -/
theorem sortDescBy_pairwise {α β : Type} [LinearOrder β] (f : α → β)
    (l : List α) : (sortDescBy f l).Pairwise (fun a b => f b ≤ f a) := by
  induction l with
  | nil => simp [sortDescBy]
  | cons b bs ih =>
    simpa only [sortDescBy, List.foldr] using
      pairwise_insertDescBy f b (bs.foldr (insertDescBy f) []) ih

theorem head_key_max_of_sortDescBy {α β : Type} [LinearOrder β] (f : α → β)
    (l : List α) (a : α) (rest : List α) (h : sortDescBy f l = a :: rest) :
    ∀ x ∈ l, f x ≤ f a := by
  intro x hx
  rcases (mem_sortDescBy f x l).mpr hx with hmem
  rw [h] at hmem
  rcases List.mem_cons.mp hmem with rfl | hmem
  · exact le_refl _
  · have hp := sortDescBy_pairwise f l
    rw [h] at hp
    exact (List.pairwise_cons.mp hp).1 x hmem

/-- Python truthiness of an optional integer value stored in a `params`
dict: absent keys and the value `0` are falsy. -/
def truthyNat (o : Option Nat) : Bool :=
  match o with
  | none => false
  | some n => n != 0

/-- Python truthiness of an optional `int` (used for quantities). -/
def truthyInt (o : Option Int) : Bool :=
  match o with
  | none => false
  | some n => n != 0

/-- Occurrence of `p` at the start of `s`, on character lists. -/
def charsLeadWith : List Char → List Char → Bool
  | [], _ => true
  | _ :: _, [] => false
  | a :: as, b :: bs => a == b && charsLeadWith as bs

/-- Occurrence of `p` anywhere inside `s`, modelling Python's
`p in s` on strings (and SQL `ILIKE '%p%'` after lowercasing). -/
def charsContain (s p : List Char) : Bool :=
  match s with
  | [] => p.isEmpty
  | _ :: rest => charsLeadWith p s || charsContain rest p

/-- `strContains s p` models Python's substring test `p in s`. -/
def strContains (s p : String) : Bool :=
  charsContain s.data p.data

/-- Python's `str.lower()`: character-wise lowercasing.  Semantically
Lean's `String.toLower` (`map Char.toLower`), but written structurally so
the kernel can evaluate it on concrete inputs. -/
def strLower (s : String) : String :=
  ⟨s.data.map Char.toLower⟩

/-- Renders a rational amount with two decimals; stands for Python's
`f"${x:.2f}"` formatting of the float amount. -/
def fmtMoney (q : ℚ) : String :=
  let cents : Int := ⌊q * 100⌋
  let whole := cents / 100
  let frac := (cents % 100).toNat
  toString whole ++ "." ++ (if frac < 10 then "0" else "") ++ toString frac

-- ── app/config.py — Settings (embedding thresholds, lines 29-34) ────────────

/-- Threshold configuration from `app/config.py` (`Settings`), with the
source defaults. -/
structure SettingsT where
  similarity_threshold : ℚ := 45 / 100
  combined_similarity_threshold : ℚ := 30 / 100
  confidence_gap_threshold : ℚ := 5 / 100
  high_confidence_threshold : ℚ := 65 / 100

/-- The default settings instance (`settings = Settings()`). -/
def defaultSettings : SettingsT := {}

-- ── app/ai/semantic.py — SemanticMatch and the selection chain ──────────────

/-- `SemanticMatch` dataclass from `app/ai/semantic.py`. -/
structure SemanticMatch where
  function_name : String
  similarity : ℚ
  method : String
  top_candidates : List (String × ℚ) := []
deriving Repr, DecidableEq

/-- Outcome of one `_chat_completion` provider call: either the provider
raised (timeout, network, config error) or it returned some text. -/
inductive LLMOutcome where
  | failure
  | returns (text : String)
deriving Repr, DecidableEq

/-- `classify_intent` from `app/ai/llm.py` (lines 77-108), given the
provider outcome for its single `_chat_completion` call.  A provider
failure is caught (`except Exception`) and yields `none`; a returned name
that is `"NONE"` or not among the offered functions also yields `none`. -/
def classify_intent (functionNames : List String) (out : LLMOutcome) :
    Option String :=
  match out with
  | LLMOutcome.failure => none
  | LLMOutcome.returns r =>
      if r = "NONE" ∨ r ∉ functionNames then none else some r

/-- The embedding-tier decision logic of `select_function`
(`app/ai/semantic.py`, lines 191-322), entered after the rule tier missed:
given the per-function scores as computed by the scoring loop (in catalog
order), whether any per-example (`individual`) embeddings exist, and the
LLM-provider outcome for the fallback call.  Mirrors the source:
sort scores descending (stable), accept the best at the high-confidence
threshold, else accept at the applicable base threshold regardless of the
gap to the runner-up (both gap branches accept), else try the LLM fallback
only when the best score is at least `0.25`, else ask for clarification.
The source rounds the diagnostic `top_candidates` scores to four digits
(`round(s, 4)`) for display; the scores are kept exact here. -/
def select_function_core (st : SettingsT) (scores : List (String × ℚ))
    (hasIndividual : Bool) (llm : LLMOutcome) : SemanticMatch :=
  match sortDescBy (fun p => p.2) scores with
  | [] =>
      -- `if not functions: return SemanticMatch("", 0.0, "clarification")`
      { function_name := "", similarity := 0, method := "clarification" }
  | (bestFn, bestScore) :: rest =>
      let second_score : ℚ := match rest with | [] => 0 | (_, s) :: _ => s
      let top_candidates := ((bestFn, bestScore) :: rest).take 3
      let threshold :=
        if hasIndividual then st.similarity_threshold
        else st.combined_similarity_threshold
      if st.high_confidence_threshold ≤ bestScore then
        { function_name := bestFn, similarity := bestScore,
          method := "semantic", top_candidates := top_candidates }
      else if threshold ≤ bestScore then
        let gap := bestScore - second_score
        if st.confidence_gap_threshold ≤ gap then
          { function_name := bestFn, similarity := bestScore,
            method := "semantic", top_candidates := top_candidates }
        else
          -- low gap: still accept the best one (only logged)
          { function_name := bestFn, similarity := bestScore,
            method := "semantic", top_candidates := top_candidates }
      else if (25 : ℚ) / 100 ≤ bestScore then
        match classify_intent (scores.map (fun p => p.1)) llm with
        | some r =>
            { function_name := r, similarity := bestScore,
              method := "llm_fallback", top_candidates := top_candidates }
        | none =>
            { function_name := "", similarity := bestScore,
              method := "clarification", top_candidates := top_candidates }
      else
        { function_name := "", similarity := bestScore,
          method := "clarification", top_candidates := top_candidates }

-- ── app/persistence/models.py — row types and database state ───────────────

/-- `Book` row (`app/persistence/models.py`).  `image_base64` uses `""` for
an absent cover (Python checks it for truthiness only). -/
structure Book where
  id : Nat
  title : String
  author : String
  genre : String
  price : ℚ
  stock : Int
  description : String := ""
  image_base64 : String := ""
deriving Repr, DecidableEq

/-- `Cart` row: `status` is `"active"` or `"checked_out"`. -/
structure CartRec where
  id : Nat
  user_id : Nat
  status : String
deriving Repr, DecidableEq

/-- `CartItem` row (its surrogate primary key is never read by the core and
is omitted). -/
structure CartItemRec where
  cart_id : Nat
  book_id : Nat
  quantity : Int
deriving Repr, DecidableEq

/-- `Order` row: `status` is `"created"`, `"paid"` or `"cancelled"`;
`created_at` is a logical timestamp used only for `ORDER BY created_at`. -/
structure OrderRec where
  id : Nat
  user_id : Nat
  status : String
  total : ℚ
  created_at : Nat
deriving Repr, DecidableEq

/-- `OrderItem` row (surrogate key omitted, never read). -/
structure OrderItemRec where
  order_id : Nat
  book_id : Nat
  quantity : Int
  unit_price : ℚ
deriving Repr, DecidableEq

/-- `Payment` row: `status` is `"approved"` or `"rejected"`. -/
structure PaymentRec where
  order_id : Nat
  amount : ℚ
  status : String
deriving Repr, DecidableEq

/-- `ExecutionLog` row (audit record written by `_log_execution`). -/
structure LogRec where
  user_id : Nat
  session_id : Option Nat
  query : String
  matched_function : String
  similarity_score : ℚ
  method : String
  top_candidates : Option (List (String × ℚ))
  state_trace : Option (List String)
  result : String
deriving Repr, DecidableEq

/-- One database snapshot.  `next_cart_id` / `next_order_id` model the
per-table autoincrement sequences; `clock` models the wall clock used to
fill `created_at`. -/
structure DB where
  books : List Book := []
  carts : List CartRec := []
  cart_items : List CartItemRec := []
  orders : List OrderRec := []
  order_items : List OrderItemRec := []
  payments : List PaymentRec := []
  execution_logs : List LogRec := []
  next_cart_id : Nat := 1
  next_order_id : Nat := 1
  clock : Nat := 0
deriving Repr, DecidableEq

/-- The SQLAlchemy async session: reads and pending mutations act on
`current`; `commit` publishes `current`, `rollback` reverts to
`committed`. -/
structure Session where
  committed : DB
  current : DB
deriving Repr, DecidableEq

def Session.commit (s : Session) : Session := ⟨s.current, s.current⟩

def Session.rollback (s : Session) : Session := ⟨s.committed, s.committed⟩

/-- A session with no pending changes over `db`. -/
def Session.clean (db : DB) : Session := ⟨db, db⟩

-- Read helpers (each models one `session.execute(select(...))` shape).

/-- `select(Book).where(Book.id == book_id)`, `scalar_one_or_none`. -/
def getBook (db : DB) (book_id : Nat) : Option Book :=
  db.books.find? (fun b => b.id == book_id)

/-- `select(Cart).where(Cart.user_id == user_id, Cart.status == "active")`. -/
def getActiveCart (db : DB) (user_id : Nat) : Option CartRec :=
  db.carts.find? (fun c => c.user_id == user_id && c.status == "active")

/-- `select(Cart).where(Cart.id == cart_id)`. -/
def getCartById (db : DB) (cart_id : Nat) : Option CartRec :=
  db.carts.find? (fun c => c.id == cart_id)

/-- `select(CartItem).where(CartItem.cart_id == cart_id, CartItem.book_id == book_id)`. -/
def getCartItem (db : DB) (cart_id book_id : Nat) : Option CartItemRec :=
  db.cart_items.find? (fun i => i.cart_id == cart_id && i.book_id == book_id)

/-- `select(Order).where(Order.id == order_id, Order.user_id == user_id)`. -/
def getOrderForUser (db : DB) (order_id user_id : Nat) : Option OrderRec :=
  db.orders.find? (fun o => o.id == order_id && o.user_id == user_id)

/-- `select(Order).where(Order.id == order_id)`. -/
def getOrderById (db : DB) (order_id : Nat) : Option OrderRec :=
  db.orders.find? (fun o => o.id == order_id)

/-- `select(Order).where(user, status == "created").order_by(created_at desc).limit(1)`:
the latest `"created"` order for the user (first row with maximal
`created_at`). -/
def latestCreatedOrder (db : DB) (user_id : Nat) : Option OrderRec :=
  match db.orders.filter (fun o => o.user_id == user_id && o.status == "created") with
  | [] => none
  | o :: os => some (os.foldl (fun acc c => if acc.created_at < c.created_at then c else acc) o)

/-- `select(Order).where(user).order_by(created_at desc).limit(1)`. -/
def latestOrder (db : DB) (user_id : Nat) : Option OrderRec :=
  match db.orders.filter (fun o => o.user_id == user_id) with
  | [] => none
  | o :: os => some (os.foldl (fun acc c => if acc.created_at < c.created_at then c else acc) o)

-- Write helpers (attribute assignment / `session.delete` on the row the
-- preceding `scalar_one*` returned, i.e. the first matching row).

def bumpCartItem : List CartItemRec → Nat → Nat → Int → List CartItemRec
  | [], _, _, _ => []
  | i :: rest, cart_id, book_id, dq =>
    if i.cart_id == cart_id && i.book_id == book_id then
      { i with quantity := i.quantity + dq } :: rest
    else i :: bumpCartItem rest cart_id book_id dq

def removeFirstCartItem : List CartItemRec → Nat → Nat → List CartItemRec
  | [], _, _ => []
  | i :: rest, cart_id, book_id =>
    if i.cart_id == cart_id && i.book_id == book_id then rest
    else i :: removeFirstCartItem rest cart_id book_id

def setCartStatus : List CartRec → Nat → String → List CartRec
  | [], _, _ => []
  | c :: cs, cart_id, st =>
    if c.id == cart_id then { c with status := st } :: cs
    else c :: setCartStatus cs cart_id st

def setOrderStatus : List OrderRec → Nat → String → List OrderRec
  | [], _, _ => []
  | o :: os, oid, st =>
    if o.id == oid then { o with status := st } :: os
    else o :: setOrderStatus os oid st

-- ── Environment oracle ──────────────────────────────────────────────────────

/-- Environmental outcomes for one query: the simulated-payment coin flip
(`random.random() < 0.85`), a possible exception inside `APPLY_ACTION`
(`fault_at` numbers, from 0, the awaited driver calls of the executed
action; the named call raises an exception rendered as `fault_msg`),
the success of the `commit` in `persist_state` and in `_log_execution`,
and the generative provider's outcome for response wording
(`build_natural_response`: `none` means it raised).  After a fault the
session is modelled as still usable, as it is in Python for
Python-level and result-processing exceptions (e.g.
`MultipleResultsFound`); a DBAPI error that additionally leaves the
session pending-rollback is represented by also setting the later
commit oracles to `false`. -/
structure Env where
  payment_approved : Bool := true
  fault_at : Option Nat := none
  fault_msg : String := "database error"
  persist_commit_ok : Bool := true
  log_commit_ok : Bool := true
  llm_natural : Option String := none
deriving Repr, DecidableEq

/-- Does the driver call numbered `op` raise in this environment? -/
def dbFault (env : Env) (op : Nat) : Bool := env.fault_at == some op

-- ── app/flow/orchestrator.py — smart book resolution (lines 519-595) ────────

/-- `EntityResolution` outcome of `_resolve_book_smart`. -/
inductive Resolution where
  | found (book_id : Nat) (book : Book)
  | ambiguous (books : List Book)
  | not_found
deriving Repr, DecidableEq

/-- Python's `max(l, key=f)` over a non-empty list `a :: l`: the first
element with maximal key. -/
def pyMaxBy {α : Type} (f : α → Nat) (a : α) (l : List α) : α :=
  l.foldl (fun acc c => if f acc < f c then c else acc) a

theorem pyMaxBy_mem {α : Type} (f : α → Nat) (a : α) (l : List α) :
    pyMaxBy f a l ∈ a :: l := by
  induction l generalizing a with
  | nil => simp [pyMaxBy]
  | cons c cs ih =>
    simp only [pyMaxBy, List.foldl] at *
    by_cases h : f a < f c
    · simp only [h, if_pos]
      have := ih c
      simp only [List.mem_cons] at this ⊢
      tauto
    · simp only [h, if_neg, not_false_iff]
      have := ih a
      simp only [List.mem_cons] at this ⊢
      tauto

theorem pyMaxBy_ge {α : Type} (f : α → Nat) (a : α) (l : List α) :
    ∀ x ∈ a :: l, f x ≤ f (pyMaxBy f a l) := by
  induction l generalizing a with
  | nil => simp [pyMaxBy]
  | cons c cs ih =>
    intro x hx
    simp only [List.mem_cons] at hx
    simp only [pyMaxBy, List.foldl]
    by_cases h : f a < f c
    · simp only [h, if_pos]
      rcases hx with h1 | h1 | h1
      · rw [h1]
        exact le_trans (le_of_lt h) (ih c c (List.mem_cons_self c cs))
      · rw [h1]
        exact ih c c (List.mem_cons_self c cs)
      · exact ih c x (List.mem_cons_of_mem c h1)
    · simp only [h, if_neg, not_false_iff]
      rcases hx with h1 | h1 | h1
      · rw [h1]
        exact ih a a (List.mem_cons_self a cs)
      · rw [h1]
        exact le_trans (le_of_not_lt h) (ih a a (List.mem_cons_self a cs))
      · exact ih a x (List.mem_cons_of_mem a h1)

/-- Keyword score of one book:
`sum(1 for kw in keywords if kw.lower() in title_lower)`. -/
def keywordScore (keywords : List String) (b : Book) : Nat :=
  (keywords.filter (fun kw => strContains (strLower b.title) (strLower kw))).length

/-- The books whose title occurs (case-insensitively) inside the query,
iterated longest-title-first:
`[b for b in sorted(all_books, key=len(title), reverse=True) if b.title.lower() in query_lower]`. -/
def exactMatches (query_lower : String) (all_books : List Book) : List Book :=
  (sortDescBy (fun b => b.title.length) all_books).filter
    (fun b => strContains query_lower (strLower b.title))

/-- The scored keyword candidates `[(book, matches) ... if matches > 0]`,
sorted by score descending (stable), as built by TIER 2/3. -/
def scoredBooks (keywords : List String) (all_books : List Book) :
    List (Book × Nat) :=
  sortDescBy (fun p => p.2)
    (all_books.filterMap (fun b =>
      let nMatched := keywordScore keywords b
      if 0 < nMatched then some (b, nMatched) else none))

/-- `_resolve_book_smart` (`app/flow/orchestrator.py`, lines 519-595).
`keywords` stands for `_extract_keywords(query)` (a regex/stop-word
helper treated as an oracle input; the cascade's decisions on it are
translated exactly).  TIER 1: exact case-insensitive title-substring
match, longest title winning ties; TIER 2: top scorer matching all
keywords; TIER 3: sole or strict top scorer, else `ambiguous` with up to
five top-tied candidates; `not_found` when everything is exhausted. -/
def _resolve_book_smart (query : String) (keywords : List String)
    (all_books : List Book) : Resolution :=
  if all_books.isEmpty then .not_found
  else
    let query_lower := strLower query
    match exactMatches query_lower all_books with
    | [b] => .found b.id b
    | b :: rest =>
        -- multiple exact matches: `max(exact_matches, key=len(title))`
        -- (first maximal element)
        let best := pyMaxBy (fun bk => bk.title.length) b rest
        .found best.id best
    | [] =>
      if keywords.isEmpty then .not_found
      else
        match scoredBooks keywords all_books with
        | [] => .not_found
        | (best_book, best_count) :: restScored =>
          if best_count = keywords.length then
            -- TIER 2: top result matches ALL keywords
            .found best_book.id best_book
          else
            match restScored with
            | [] => .found best_book.id best_book
            | (_, second_count) :: _ =>
              if second_count < best_count then .found best_book.id best_book
              else
                let top_books := (((best_book, best_count) :: restScored).take 5).filterMap
                  (fun p => if p.2 = best_count then some p.1 else none)
                .ambiguous top_books

-- ── app/flow/graph.py — FlowState and node functions ────────────────────────

/-- The extracted parameters dict (`params`): keys `book_id`, `quantity`,
`order_id`; `none` is an absent key. -/
structure Params where
  book_id : Option Nat := none
  quantity : Option Int := none
  order_id : Option Nat := none
deriving Repr, DecidableEq

/-- `ctx["book"]` as loaded by `load_context`. -/
structure BookCtx where
  id : Nat
  title : String
  price : ℚ
  stock : Int
deriving Repr, DecidableEq

/-- One entry of `ctx["cart_items"]` for checkout. -/
structure CartItemCtx where
  book_id : Nat
  quantity : Int
  title : String
  price : ℚ
deriving Repr, DecidableEq

/-- `ctx["order"]` as loaded by `load_context`. -/
structure OrderCtx where
  id : Nat
  status : String
  total : ℚ
deriving Repr, DecidableEq

/-- The loaded context dict: `none`/`[]` stand both for an absent key and
for an explicit `None` value (Python code only ever tests them for
truthiness or with defaulting `get`). -/
structure Ctx where
  book : Option BookCtx := none
  cart_id : Option Nat := none
  cart_items : List CartItemCtx := []
  order : Option OrderCtx := none
deriving Repr, DecidableEq

/-- The result dict of one action; absent keys are `none`. -/
structure ActionResult where
  success : Option Bool := none
  message : Option String := none
  book : Option String := none
  quantity : Option Int := none
  cart_id : Option Nat := none
  order_id : Option Nat := none
  total : Option ℚ := none
  items_count : Option Nat := none
  needs_confirmation : Option Bool := none
  payment_status : Option String := none
  amount : Option ℚ := none
  order : Option OrderCtx := none
deriving Repr, DecidableEq

/-- `FlowState` TypedDict from `app/flow/graph.py`. -/
structure FlowState where
  user_id : Nat
  function_name : String
  query : String
  params : Params
  context : Ctx := {}
  action_result : ActionResult := {}
  response : String := ""
  state_trace : List String := []
  needs_input : Bool := false
  missing_fields : List String := []
  error : Option String := none
deriving Repr, DecidableEq

/-- `validate_input` (graph.py, lines 44-90): per-action required-field
check; `add_book_to_cart` additionally defaults a falsy quantity to 1. -/
def validate_input (state : FlowState) : FlowState :=
  let trace := state.state_trace ++ ["VALIDATE_INPUT"]
  let fn := state.function_name
  let params := state.params
  let checked : List String × Params :=
    if fn = "add_book_to_cart" then
      let missing := if truthyNat params.book_id then [] else ["book_id"]
      let params :=
        if truthyInt params.quantity then params
        else { params with quantity := some 1 }
      (missing, params)
    else if fn = "remove_book_from_cart" then
      ((if truthyNat params.book_id then [] else ["book_id"]), params)
    else if fn = "process_payment" then ([], params)
    else if fn = "confirm_payment" then ([], params)
    else if fn = "cancel_order" then
      ((if truthyNat params.order_id then [] else ["order_id"]), params)
    else ([], params)
  if checked.1.isEmpty then
    { state with state_trace := trace, needs_input := false,
                 missing_fields := [], params := checked.2 }
  else
    { state with state_trace := trace, needs_input := true,
                 missing_fields := checked.1, params := checked.2 }

/-- `load_context` (graph.py, lines 93-165): read-only fetch of whatever
the action needs. -/
def load_context (state : FlowState) (db : DB) : FlowState :=
  let trace := state.state_trace ++ ["LOAD_CONTEXT"]
  let fn := state.function_name
  let params := state.params
  let user_id := state.user_id
  let ctx : Ctx :=
    if fn = "add_book_to_cart" ∨ fn = "remove_book_from_cart" then
      let bookCtx :=
        if truthyNat params.book_id then
          match getBook db (params.book_id.getD 0) with
          | some b => some { id := b.id, title := b.title, price := b.price,
                             stock := b.stock }
          | none => none
        else none
      { book := bookCtx, cart_id := (getActiveCart db user_id).map (fun c => c.id) }
    else if fn = "checkout_order" then
      match getActiveCart db user_id with
      | none => {}
      | some cart =>
        let items := db.cart_items.filter (fun i => i.cart_id == cart.id)
        { cart_id := some cart.id,
          cart_items := items.map (fun i =>
            match getBook db i.book_id with
            | some b => { book_id := i.book_id, quantity := i.quantity,
                          title := b.title, price := b.price }
            | none => { book_id := i.book_id, quantity := i.quantity,
                        title := "Unknown", price := 0 }) }
    else if fn = "process_payment" ∨ fn = "confirm_payment" ∨
            fn = "cancel_order" ∨ fn = "get_order_status" then
      let order :=
        if truthyNat params.order_id then
          getOrderForUser db (params.order_id.getD 0) user_id
        else latestCreatedOrder db user_id
      match order with
      | some o => { order := some { id := o.id, status := o.status, total := o.total } }
      | none => {}
    else {}
  { state with state_trace := trace, context := ctx }

/-- `_action_add_to_cart` (graph.py, lines 254-294).  Driver calls, in
order: when a new cart is created, call 0 is the `flush` and call 1 the
`SELECT` for an existing cart item; without creation the `SELECT` is
call 0.  The dict access `params["book_id"]` is modelled as
`params.book_id.getD 0`: on every flow that reaches this action the
validator has guaranteed the key present and nonzero. -/
def _action_add_to_cart (env : Env) (user_id : Nat) (params : Params)
    (ctx : Ctx) (db : DB) : Except String ActionResult × DB :=
  match ctx.book with
  | none => (.ok { success := some false, message := some "Libro no encontrado" }, db)
  | some book =>
    if book.stock < params.quantity.getD 1 then
      (.ok { success := some false, message := some "Stock insuficiente" }, db)
    else
      let created := ¬ truthyNat ctx.cart_id
      let cart_id := if created then db.next_cart_id else ctx.cart_id.getD 0
      let newCart : CartRec := { id := db.next_cart_id, user_id := user_id, status := "active" }
      let db1 :=
        if created then
          { db with carts := db.carts ++ [newCart], next_cart_id := db.next_cart_id + 1 }
        else db
      if created ∧ dbFault env 0 then (.error env.fault_msg, db1)
      else if dbFault env (if created then 1 else 0) then (.error env.fault_msg, db1)
      else
        let qty := params.quantity.getD 1
        let ok : ActionResult :=
          { success := some true, book := some book.title,
            quantity := some qty, cart_id := some cart_id }
        match getCartItem db1 cart_id (params.book_id.getD 0) with
        | some _ =>
          let items := bumpCartItem db1.cart_items cart_id (params.book_id.getD 0) qty
          (.ok ok, { db1 with cart_items := items })
        | none =>
          let newItem : CartItemRec :=
            { cart_id := cart_id, book_id := params.book_id.getD 0, quantity := qty }
          (.ok ok, { db1 with cart_items := db1.cart_items ++ [newItem] })

/-- `_action_remove_from_cart` (graph.py, lines 297-315).  Driver calls:
0 the `SELECT` for the cart item, 1 the `delete`.  `params["book_id"]`
is modelled as `params.book_id.getD 0`, as in `_action_add_to_cart`. -/
def _action_remove_from_cart (env : Env) (params : Params) (ctx : Ctx)
    (db : DB) : Except String ActionResult × DB :=
  if ¬ truthyNat ctx.cart_id then
    (.ok { success := some false, message := some "No tienes un carrito activo" }, db)
  else if dbFault env 0 then (.error env.fault_msg, db)
  else
    match getCartItem db (ctx.cart_id.getD 0) (params.book_id.getD 0) with
    | none =>
      (.ok { success := some false, message := some "El libro no está en tu carrito" }, db)
    | some _ =>
      if dbFault env 1 then (.error env.fault_msg, db)
      else
        let items := removeFirstCartItem db.cart_items (ctx.cart_id.getD 0) (params.book_id.getD 0)
        (.ok { success := some true, message := some "Libro eliminado del carrito" },
         { db with cart_items := items })

/-- `_action_checkout` (graph.py, lines 318-352).  Driver calls: 0 the
`flush` after adding the order, 1 the `SELECT` of the cart
(whose `scalar_one()` raises when no row is found). -/
def _action_checkout (env : Env) (user_id : Nat) (ctx : Ctx) (db : DB) :
    Except String ActionResult × DB :=
  if ¬ truthyNat ctx.cart_id ∨ ctx.cart_items.isEmpty then
    (.ok { success := some false, message := some "Tu carrito está vacío" }, db)
  else
    let total := (ctx.cart_items.map (fun i => i.price * (i.quantity : ℚ))).sum
    let oid := db.next_order_id
    let newOrder : OrderRec :=
      { id := oid, user_id := user_id, status := "created", total := total,
        created_at := db.clock }
    let db1 :=
      { db with orders := db.orders ++ [newOrder],
                next_order_id := db.next_order_id + 1, clock := db.clock + 1 }
    if dbFault env 0 then (.error env.fault_msg, db1)
    else
      let newItems := ctx.cart_items.map (fun i =>
        { order_id := oid, book_id := i.book_id, quantity := i.quantity,
          unit_price := i.price : OrderItemRec })
      let db2 := { db1 with order_items := db1.order_items ++ newItems }
      if dbFault env 1 then (.error env.fault_msg, db2)
      else
        match getCartById db2 (ctx.cart_id.getD 0) with
        | none => (.error "No row was found when one was required", db2)
        | some _ =>
          (.ok { success := some true, order_id := some oid, total := some total,
                 items_count := some ctx.cart_items.length },
           { db2 with carts := setCartStatus db2.carts (ctx.cart_id.getD 0) "checked_out" })

/-- `_build_payment_confirmation` (graph.py, lines 355-372): returns a
confirmation prompt instead of processing payment; rejects any order not
in `"created"` state. -/
def _build_payment_confirmation (ctx : Ctx) : ActionResult :=
  match ctx.order with
  | none =>
    { success := some false,
      message := some "No se encontró una orden pendiente de pago. Primero haz checkout de tu carrito." }
  | some order =>
    if order.status = "paid" then
      { success := some false,
        message := some ("La orden **#" ++ toString order.id ++ "** ya fue pagada anteriormente.") }
    else if order.status = "cancelled" then
      { success := some false,
        message := some ("La orden **#" ++ toString order.id ++ "** fue cancelada y no se puede pagar.") }
    else if order.status ≠ "created" then
      { success := some false,
        message := some ("La orden **#" ++ toString order.id ++ "** está en estado \x27" ++
          order.status ++ "\x27 y no se puede pagar.") }
    else
      { needs_confirmation := some true, order_id := some order.id,
        amount := some order.total }

/-- `_action_process_payment` (graph.py, lines 375-416): the actual
payment execution used by `confirm_payment`.  The `random.random() < 0.85`
coin flip is the oracle `env.payment_approved`.  Driver call 0 is the
`SELECT` of the order (its `scalar_one()` raises when no row is found). -/
def _action_process_payment (env : Env) (ctx : Ctx) (db : DB) :
    Except String ActionResult × DB :=
  match ctx.order with
  | none =>
    (.ok { success := some false,
           message := some "No se encontró una orden pendiente de pago. Primero haz checkout de tu carrito." }, db)
  | some order =>
    if order.status = "paid" then
      (.ok { success := some false,
             message := some ("La orden **#" ++ toString order.id ++ "** ya fue pagada anteriormente.") }, db)
    else if order.status = "cancelled" then
      (.ok { success := some false,
             message := some ("La orden **#" ++ toString order.id ++ "** fue cancelada y no se puede pagar.") }, db)
    else if order.status ≠ "created" then
      (.ok { success := some false,
             message := some ("La orden **#" ++ toString order.id ++ "** está en estado \x27" ++
               order.status ++ "\x27 y no se puede pagar.") }, db)
    else
      let approved := env.payment_approved
      let status := if approved then "approved" else "rejected"
      let newPayment : PaymentRec :=
        { order_id := order.id, amount := order.total, status := status }
      let db1 := { db with payments := db.payments ++ [newPayment] }
      if dbFault env 0 then (.error env.fault_msg, db1)
      else
        match getOrderById db1 order.id with
        | none => (.error "No row was found when one was required", db1)
        | some _ =>
          let orders := setOrderStatus db1.orders order.id (if approved then "paid" else "created")
          let db2 := { db1 with orders := orders }
          let base : ActionResult :=
            { success := some approved, payment_status := some status,
              order_id := some order.id, amount := some order.total }
          if approved then (.ok base, db2)
          else
            let msg := "El pago para la orden **#" ++ toString order.id ++
              "** fue rechazado. Intenta de nuevo."
            (.ok { base with message := some msg }, db2)

/-- `_action_cancel_order` (graph.py, lines 419-435): refuses orders
already `"paid"` or `"cancelled"`, otherwise sets `"cancelled"`.  Driver
call 0 is the `SELECT` of the order. -/
def _action_cancel_order (env : Env) (ctx : Ctx) (db : DB) :
    Except String ActionResult × DB :=
  match ctx.order with
  | none => (.ok { success := some false, message := some "Orden no encontrada" }, db)
  | some order =>
    if order.status = "paid" then
      (.ok { success := some false,
             message := some ("No se puede cancelar la orden **#" ++ toString order.id ++
               "** porque ya fue pagada.") }, db)
    else if order.status = "cancelled" then
      (.ok { success := some false,
             message := some ("La orden **#" ++ toString order.id ++ "** ya está cancelada.") }, db)
    else if dbFault env 0 then (.error env.fault_msg, db)
    else
      match getOrderById db order.id with
      | none => (.error "No row was found when one was required", db)
      | some _ =>
        (.ok { success := some true, order_id := some order.id },
         { db with orders := setOrderStatus db.orders order.id "cancelled" })

/-- `apply_action` (graph.py, lines 168-206): dispatches on the action
name; any exception is caught and recorded in `error`, keeping whatever
pending changes the action made before raising. -/
def apply_action (env : Env) (state : FlowState) (db : DB) : FlowState × DB :=
  let trace := state.state_trace ++ ["APPLY_ACTION"]
  let fn := state.function_name
  let outcome : Except String ActionResult × DB :=
    if fn = "add_book_to_cart" then
      _action_add_to_cart env state.user_id state.params state.context db
    else if fn = "remove_book_from_cart" then
      _action_remove_from_cart env state.params state.context db
    else if fn = "checkout_order" then
      _action_checkout env state.user_id state.context db
    else if fn = "process_payment" then
      (.ok (_build_payment_confirmation state.context), db)
    else if fn = "confirm_payment" then
      _action_process_payment env state.context db
    else if fn = "cancel_order" then
      _action_cancel_order env state.context db
    else if fn = "get_order_status" then
      (.ok { order := state.context.order }, db)
    else (.ok {}, db)
  match outcome with
  | (.ok r, db') =>
    ({ state with state_trace := trace, action_result := r, error := none }, db')
  | (.error e, db') =>
    ({ state with state_trace := trace, action_result := {}, error := some e }, db')

/-- `persist_state` (graph.py, lines 209-221): `commit`, or `rollback` on
commit failure (the error is only logged). -/
def persist_state (env : Env) (state : FlowState) (s : Session) :
    FlowState × Session :=
  let trace := state.state_trace ++ ["PERSIST"]
  if env.persist_commit_ok then ({ state with state_trace := trace }, s.commit)
  else ({ state with state_trace := trace }, s.rollback)

-- ── app/ai/llm.py — guardrail text and deterministic templates ──────────────

def DOMAIN_GUARDRAIL : String :=
  "No puedo ayudar con eso. Puedo ayudarte con compras, recomendaciones y pedidos de libros."

def FALLBACK_RESPONSE : String :=
  "Lo siento, hubo un problema al procesar tu solicitud. ¿Podrías intentar de nuevo?"

/-- `TRANSACTIONAL_ACTIONS` set from `app/ai/llm.py` (lines 222-230). -/
def TRANSACTIONAL_ACTIONS : List String :=
  ["add_book_to_cart", "remove_book_from_cart", "checkout_order",
   "process_payment", "confirm_payment", "cancel_order", "view_cart"]

/-- Python truthiness of `result.get("success")`: absent, `None` and
`False` are all falsy. -/
def successTruthy (r : ActionResult) : Bool := r.success.getD false

/-- `_build_fallback_response` (`app/ai/llm.py`, lines 147-219) restricted
to the action-result dict shapes produced by the flow engine (the source
function is a single dict-typed function also covering the direct
read-only shapes, modelled separately as `_build_fallback_response_direct`). -/
def _build_fallback_response_flow (action : String) (r : ActionResult) : String :=
  if action = "add_book_to_cart" then
    if ¬ successTruthy r then r.message.getD "No se pudo agregar al carrito."
    else (r.book.getD "Libro") ++ " (x" ++ toString (r.quantity.getD 1) ++ ") agregado al carrito."
  else if action = "remove_book_from_cart" then
    if ¬ successTruthy r then r.message.getD "No se pudo eliminar del carrito."
    else "Libro eliminado del carrito."
  else if action = "checkout_order" then
    if ¬ successTruthy r then r.message.getD "No se pudo crear la orden."
    else "Orden #" ++ toString (r.order_id.getD 0) ++ " creada. Total: $" ++
      fmtMoney (r.total.getD 0) ++ ". " ++ toString (r.items_count.getD 0) ++ " item(s)."
  else if action = "process_payment" then
    if ¬ successTruthy r then r.message.getD "El pago fue rechazado. Intenta de nuevo."
    else "Pago aprobado para la orden #" ++ toString (r.order_id.getD 0) ++
      ". Monto: $" ++ fmtMoney (r.amount.getD 0) ++ "."
  else if action = "cancel_order" then
    if ¬ successTruthy r then r.message.getD "No se pudo cancelar la orden."
    else "Orden #" ++ toString (r.order_id.getD 0) ++ " cancelada."
  else if action = "get_order_status" then
    "Orden #" ++ toString (r.order_id.getD 0) ++ ": estado " ++
      "?" ++ ", total $" ++ fmtMoney (r.total.getD 0) ++ "."
  else FALLBACK_RESPONSE

/-- `build_transactional_response` (`app/ai/llm.py`, lines 233-308):
template-based responses for transactional actions, no LLM involved.
The `view_cart` dict shape (`items`/`subtotal`) is never produced by any
modelled dispatch; for it the flow engine's empty result renders the
empty-cart message exactly as the source does on an empty `items` list. -/
def build_transactional_response (action : String) (r : ActionResult) : String :=
  if action = "add_book_to_cart" then
    if ¬ successTruthy r then r.message.getD "No se pudo agregar al carrito."
    else
      "**" ++ r.book.getD "Libro" ++ "** (x" ++ toString (r.quantity.getD 1) ++
      ") agregado al carrito.\n\n¿Qué deseas hacer ahora?\n" ++
      "- Escribe **\"ver mi carrito\"** para ver el contenido\n" ++
      "- Escribe **\"hacer checkout\"** para crear tu orden"
  else if action = "remove_book_from_cart" then
    if ¬ successTruthy r then r.message.getD "No se pudo eliminar del carrito."
    else "Libro eliminado del carrito. Escribe **\"ver mi carrito\"** para ver el contenido actualizado."
  else if action = "checkout_order" then
    if ¬ successTruthy r then r.message.getD "No se pudo crear la orden."
    else
      "Orden **#" ++ toString (r.order_id.getD 0) ++ "** creada con " ++
      toString (r.items_count.getD 0) ++ " item(s).\n**Total: $" ++
      fmtMoney (r.total.getD 0) ++ "**\n\nPara pagar, escribe **\"pagar orden #" ++
      toString (r.order_id.getD 0) ++ "\"**."
  else if action = "process_payment" then
    if r.needs_confirmation.getD false then
      "Estás a punto de pagar **$" ++ fmtMoney (r.amount.getD 0) ++
      "** para la orden **#" ++ toString (r.order_id.getD 0) ++
      "**.\n\nResponde **\"sí, confirmo el pago\"** para procesar el pago."
    else if ¬ successTruthy r then r.message.getD "El pago fue rechazado. Intenta de nuevo."
    else
      "Pago **aprobado** para la orden **#" ++ toString (r.order_id.getD 0) ++
      "**.\nMonto: **$" ++ fmtMoney (r.amount.getD 0) ++ "**.\n\n¡Gracias por tu compra!"
  else if action = "confirm_payment" then
    if ¬ successTruthy r then r.message.getD "El pago fue rechazado. Intenta de nuevo."
    else
      "Pago **aprobado** para la orden **#" ++ toString (r.order_id.getD 0) ++
      "**.\nMonto: **$" ++ fmtMoney (r.amount.getD 0) ++ "**.\n\n¡Gracias por tu compra!"
  else if action = "cancel_order" then
    if ¬ successTruthy r then r.message.getD "No se pudo cancelar la orden."
    else "Orden **#" ++ toString (r.order_id.getD 0) ++ "** cancelada exitosamente."
  else if action = "view_cart" then
    "Tu carrito está vacío. Escribe **\"buscar libros\"** para explorar el catálogo."
  else _build_fallback_response_flow action r

/-- `build_response` (graph.py, lines 224-249): an error produces the
apology naming the error; transactional actions always use the
deterministic templates; other actions try the generative provider
(`env.llm_natural`) and fall back to the template on failure.
Python tests `state.get("error")` for truthiness, so an empty-string
error behaves like no error. -/
def build_response (env : Env) (state : FlowState) : FlowState :=
  let trace := state.state_trace ++ ["BUILD_RESPONSE"]
  let fn := state.function_name
  let response :=
    if state.error.getD "" ≠ "" then
      "Hubo un error al procesar tu solicitud: " ++ state.error.getD ""
    else if fn ∈ TRANSACTIONAL_ACTIONS then
      build_transactional_response fn state.action_result
    else
      match env.llm_natural with
      | some r => r
      | none => _build_fallback_response_flow fn state.action_result
  { state with state_trace := trace, response := response }

/-- The human-readable names used by `run_flow` for missing fields. -/
def fieldName (f : String) : String :=
  if f = "book_id" then "el ID del libro"
  else if f = "order_id" then "el número de orden"
  else if f = "quantity" then "la cantidad"
  else f

/-- `run_flow` (graph.py, lines 499-556): executes the flow step by step.
Missing input short-circuits to the `ASK_INPUT` message without touching
storage; an action error (truthy `state["error"]`) skips `PERSIST`. -/
def run_flow (env : Env) (function_name : String) (user_id : Nat)
    (query : String) (params : Params) (s : Session) : FlowState × Session :=
  let state : FlowState :=
    { user_id := user_id, function_name := function_name, query := query,
      params := params }
  let state := validate_input state
  if state.needs_input then
    let missing_str := String.intercalate ", " (state.missing_fields.map fieldName)
    let state :=
      { state with
        response := "Para continuar, necesito que me indiques " ++ missing_str ++ ".",
        state_trace := state.state_trace ++ ["ASK_INPUT"] }
    (state, s)
  else
    let state := load_context state s.current
    let stepped := apply_action env state s.current
    let state := stepped.1
    let s : Session := { s with current := stepped.2 }
    let persisted :=
      if state.error.getD "" ≠ "" then (state, s)
      else persist_state env state s
    let state := build_response env persisted.1
    (state, persisted.2)

-- ── app/flow/orchestrator.py — direct execution and the orchestrator ────────

/-- Dispatch set of stateful flow actions (`LANGGRAPH_FUNCTIONS`,
orchestrator.py lines 20-26).  Note: `confirm_payment` and `view_cart`
are absent, although both are seeded intent actions. -/
def LANGGRAPH_FUNCTIONS : List String :=
  ["add_book_to_cart", "remove_book_from_cart", "checkout_order",
   "process_payment", "cancel_order"]

/-- Dispatch set of read-only actions (`DIRECT_FUNCTIONS`, lines 29-35). -/
def DIRECT_FUNCTIONS : List String :=
  ["search_books_for_sale", "recommend_books_for_purchase",
   "get_book_product_details", "check_book_stock", "get_order_status"]

/-- Result dict of `_execute_direct`, by shape. -/
inductive DirectResult where
  | searchR (books : List Book) (count : Nat)
  | recommendR (recommendations : List Book)
  | detailsR (b : Book)
  | detailsErr (error : String) (options : List Book)
  | stockR (b : Book)
  | stockErr (error : String) (options : List Book)
  | orderR (order_id : Nat) (status : String) (total : ℚ)
  | orderErr (error : String)
  | notImplementedR
deriving Repr, DecidableEq

/-- `_search_books` (orchestrator.py, lines 237-263): `OR` of
`ILIKE '%kw%'` over title, genre and author, `LIMIT 10`; no keywords
means no `WHERE` clause. -/
def _search_books (keywords : List String) (db : DB) : DirectResult :=
  let books :=
    if keywords.isEmpty then db.books.take 10
    else
      (db.books.filter (fun b => keywords.any (fun kw =>
        strContains (strLower b.title) (strLower kw) ||
        strContains (strLower b.genre) (strLower kw) ||
        strContains (strLower b.author) (strLower kw)))).take 10
  .searchR books books.length

/-- `_recommend_books` (lines 266-289): optional genre filter, `LIMIT 5`. -/
def _recommend_books (keywords : List String) (db : DB) : DirectResult :=
  let stmt :=
    if keywords.isEmpty then db.books
    else db.books.filter (fun b => keywords.any (fun kw =>
      strContains (strLower b.genre) (strLower kw)))
  .recommendR (stmt.take 5)

/-- `_get_book_details` (lines 292-306). -/
def _get_book_details (query : String) (keywords : List String) (db : DB) :
    DirectResult :=
  match _resolve_book_smart query keywords db.books with
  | .not_found => .detailsErr "No pude identificar el libro" []
  | .ambiguous books => .detailsErr "Encontré varios libros, sé más específico" books
  | .found _ b => .detailsR b

/-- `_check_stock` (lines 309-322). -/
def _check_stock (query : String) (keywords : List String) (db : DB) :
    DirectResult :=
  match _resolve_book_smart query keywords db.books with
  | .not_found => .stockErr "No pude identificar el libro" []
  | .ambiguous books => .stockErr "Encontré varios libros, sé más específico" books
  | .found _ b => .stockR b

/-- `_get_order_status` (lines 325-348): explicit order id (from
`_extract_number(query, "order_id")`, supplied as an oracle) or the
user's latest order. -/
def _get_order_status (user_id : Nat) (extracted_order_id : Option Nat)
    (db : DB) : DirectResult :=
  let order :=
    if truthyNat extracted_order_id then
      getOrderForUser db (extracted_order_id.getD 0) user_id
    else latestOrder db user_id
  match order with
  | none => .orderErr "No se encontró la orden"
  | some o => .orderR o.id o.status o.total

/-- Oracle inputs abstracting the regex- and ML-based helpers of the
orchestrator and resolver for one query: `help` is
`_check_help_query(query)`, `semantic_match` is
`select_function(query, session)`, `domain_relevant` is
`_is_domain_relevant(query)`, `keywords` is `_extract_keywords(query)`,
`quantity` is `_extract_number(query, "quantity")` and `order_id_num`
is `_extract_number(query, "order_id")`. -/
structure ResolverOracle where
  help : Option String := none
  semantic_match : SemanticMatch
  domain_relevant : Bool := true
  keywords : List String := []
  quantity : Option Nat := none
  order_id_num : Option Nat := none
deriving Repr, DecidableEq

/-- `_execute_direct` (lines 216-234). -/
def _execute_direct (fn_name : String) (query : String) (user_id : Nat)
    (res : ResolverOracle) (db : DB) : DirectResult :=
  if fn_name = "search_books_for_sale" then _search_books res.keywords db
  else if fn_name = "recommend_books_for_purchase" then _recommend_books res.keywords db
  else if fn_name = "get_book_product_details" then _get_book_details query res.keywords db
  else if fn_name = "check_book_stock" then _check_stock query res.keywords db
  else if fn_name = "get_order_status" then _get_order_status user_id res.order_id_num db
  else .notImplementedR

/-- `_build_fallback_response` (`app/ai/llm.py`, lines 147-219) on the
direct read-only result shapes. -/
def _build_fallback_response_direct (r : DirectResult) : String :=
  match r with
  | .searchR books _ =>
    if books.isEmpty then "No encontre libros con esos criterios."
    else
      let header := "Encontre " ++ toString books.length ++ " libro(s):\n"
      let lines := (books.take 10).map (fun b =>
        "- " ++ b.title ++ " por " ++ b.author ++ " -- $" ++ fmtMoney b.price)
      String.intercalate "\n" (header :: lines)
  | .recommendR recs =>
    if recs.isEmpty then "No tengo recomendaciones por ahora."
    else
      let lines := recs.map (fun b =>
        "- " ++ b.title ++ " por " ++ b.author ++ " -- $" ++ fmtMoney b.price)
      String.intercalate "\n" ("Te recomiendo:\n" :: lines)
  | .detailsErr e _ => e
  | .detailsR b =>
    b.title ++ "\nAutor: " ++ b.author ++ "\nGenero: " ++ b.genre ++
    "\nPrecio: $" ++ fmtMoney b.price ++ "\nStock: " ++ toString b.stock ++
    " unidades\n" ++ b.description
  | .stockErr e _ => e
  | .stockR b =>
    if 0 < b.stock then b.title ++ " tiene " ++ toString b.stock ++ " unidades disponibles."
    else b.title ++ " esta agotado."
  | .orderErr e => e
  | .orderR oid status total =>
    "Orden #" ++ toString oid ++ ": estado " ++ status ++ ", total $" ++ fmtMoney total ++ "."
  | .notImplementedR => FALLBACK_RESPONSE

/-- `_build_response_safe` (orchestrator.py, lines 675-690): try the
generative provider (`env.llm_natural`; `none` means it raised, an empty
string is falsy), fall back to the deterministic template. -/
def _build_response_safe (env : Env) (result_data : DirectResult) : String :=
  match env.llm_natural with
  | some r => if r ≠ "" then r else _build_fallback_response_direct result_data
  | none => _build_fallback_response_direct result_data

/-- `_extract_books_from_result` (lines 695-725): book entries carrying a
truthy cover image, `none` when there are none. -/
def _extract_books_from_result (result : DirectResult) : Option (List Book) :=
  let books :=
    match result with
    | .searchR bs _ => bs.filter (fun b => b.image_base64 ≠ "")
    | .recommendR bs => bs.filter (fun b => b.image_base64 ≠ "")
    | .detailsR b => if b.image_base64 ≠ "" then [b] else []
    | .stockR b => if b.image_base64 ≠ "" then [b] else []
    | _ => []
  if books.isEmpty then none else some books

/-- `_strip_images_for_llm` (lines 728-740): drops the top-level and
per-book `image_base64` fields (modelled as setting them to the falsy
`""`); the `options` lists of error shapes are not stripped, as in the
source. -/
def _strip_images_for_llm (result : DirectResult) : DirectResult :=
  match result with
  | .searchR bs n => .searchR (bs.map (fun b => { b with image_base64 := "" })) n
  | .recommendR bs => .recommendR (bs.map (fun b => { b with image_base64 := "" }))
  | .detailsR b => .detailsR { b with image_base64 := "" }
  | .stockR b => .stockR { b with image_base64 := "" }
  | r => r

/-- `_extract_params` (orchestrator.py, lines 353-378): smart book
resolution for the four book-referencing actions, context-aware quantity
for `add_book_to_cart`, context-aware order id for `process_payment`,
`cancel_order` and `get_order_status` (note: not `confirm_payment`). -/
def _extract_params (query : String) (fn_name : String) (res : ResolverOracle)
    (db : DB) : Params :=
  let params : Params := {}
  let params :=
    if fn_name = "add_book_to_cart" ∨ fn_name = "remove_book_from_cart" ∨
       fn_name = "get_book_product_details" ∨ fn_name = "check_book_stock" then
      match _resolve_book_smart query res.keywords db.books with
      | .found bid _ => { params with book_id := some bid }
      | _ => params
    else params
  let params :=
    if fn_name = "add_book_to_cart" ∧ truthyNat res.quantity then
      { params with quantity := some ((res.quantity.getD 0 : Nat) : Int) }
    else params
  let params :=
    if (fn_name = "process_payment" ∨ fn_name = "cancel_order" ∨
        fn_name = "get_order_status") ∧ truthyNat res.order_id_num then
      { params with order_id := res.order_id_num }
    else params
  params

/-- `_log_execution` (orchestrator.py, lines 745-777): adds one
`ExecutionLog` row and commits; on failure it rolls back and swallows the
error, so pending changes (including the log row) are reverted but the
caller continues. -/
def _log_execution (env : Env) (user_id : Nat) (session_id : Option Nat)
    (query : String) (fn_name : String) (similarity : ℚ) (method : String)
    (state_trace : Option (List String)) (result : String)
    (top_candidates : Option (List (String × ℚ))) (s : Session) : Session :=
  let log : LogRec :=
    { user_id := user_id, session_id := session_id, query := query,
      matched_function := fn_name, similarity_score := similarity,
      method := method, top_candidates := top_candidates,
      state_trace := state_trace, result := result }
  if env.log_commit_ok then
    Session.commit { s with current := { s.current with
      execution_logs := s.current.execution_logs ++ [log] } }
  else s.rollback

/-- `OrchestratorResult` dataclass (orchestrator.py, lines 38-46). -/
structure OrchestratorResult where
  response : String
  function_name : String
  method : String
  similarity : ℚ
  state_trace : Option (List String) := none
  books : Option (List Book) := none
  top_candidates : Option (List (String × ℚ)) := none
deriving Repr, DecidableEq

/-- The fixed clarification menu text of `handle_query`. -/
def CLARIFICATION_MENU : String :=
  "No estoy seguro de entender tu solicitud. Puedo ayudarte con:\n\n" ++
  "- Buscar libros por género, autor o tema\n" ++
  "- Recomendaciones personalizadas\n" ++
  "- Ver detalles de un libro\n" ++
  "- Verificar stock/disponibilidad\n" ++
  "- Agregar o quitar libros del carrito\n" ++
  "- Hacer checkout y pagar\n" ++
  "- Consultar estado de pedidos\n\n" ++
  "¿Qué te gustaría hacer?"

/-- The numbered title list of the disambiguation response:
`"  {i+1}) {title} — {author}"` joined by newlines. -/
def ambiguousTitles (books : List Book) : String :=
  String.intercalate "\n" (books.enum.map (fun p =>
    "  " ++ toString (p.1 + 1) ++ ") " ++ p.2.title ++ " — " ++ p.2.author))

/-- `handle_query` (orchestrator.py, lines 49-211): help shortcut,
semantic selection, guardrail/clarification, parameter extraction,
entity-resolution outcomes for cart actions, then dispatch to the flow
engine or the direct executor, each followed by one `_log_execution`
call — except the final fall-through (`# Should not reach here`), which
returns the internal error without writing a log. -/
def handle_query (env : Env) (res : ResolverOracle) (query : String)
    (user_id : Nat) (session_id : Option Nat) (s : Session) :
    OrchestratorResult × Session :=
  match res.help with
  | some help_response =>
    let s := _log_execution env user_id session_id query "" 1 "help" none help_response none s
    ({ response := help_response, function_name := "", method := "help",
       similarity := 1 }, s)
  | none =>
    let m := res.semantic_match
    if m.method = "clarification" then
      if ¬ res.domain_relevant then
        let s := _log_execution env user_id session_id query "" 0 "guardrail" none
          DOMAIN_GUARDRAIL (some m.top_candidates) s
        ({ response := DOMAIN_GUARDRAIL, function_name := "", method := "guardrail",
           similarity := m.similarity, top_candidates := some m.top_candidates }, s)
      else
        let s := _log_execution env user_id session_id query "" m.similarity
          "clarification" none CLARIFICATION_MENU (some m.top_candidates) s
        ({ response := CLARIFICATION_MENU, function_name := "",
           method := "clarification", similarity := m.similarity,
           top_candidates := some m.top_candidates }, s)
    else
      let fn_name := m.function_name
      let extracted := _extract_params query fn_name res s.current
      if fn_name ∈ LANGGRAPH_FUNCTIONS then
        -- book name resolution for cart operations when "book_id" was not
        -- put into the extracted params
        let resolution :=
          if (fn_name = "add_book_to_cart" ∨ fn_name = "remove_book_from_cart") ∧
              extracted.book_id = none then
            some (_resolve_book_smart query res.keywords s.current.books)
          else none
        match resolution with
        | some (Resolution.ambiguous books_data) =>
          let response := "Encontré varios libros que coinciden. ¿Te refieres a alguno de estos?\n\n" ++
            ambiguousTitles books_data ++ "\n\nDime el número o nombre del libro."
          let s := _log_execution env user_id session_id query fn_name m.similarity
            m.method none response (some m.top_candidates) s
          ({ response := response, function_name := fn_name, method := m.method,
             similarity := m.similarity, books := some books_data,
             top_candidates := some m.top_candidates }, s)
        | some Resolution.not_found =>
          let response := "No encontré ningún libro con ese nombre. ¿Podrías darme más detalles o el nombre exacto?"
          let s := _log_execution env user_id session_id query fn_name m.similarity
            m.method none response (some m.top_candidates) s
          ({ response := response, function_name := fn_name, method := m.method,
             similarity := m.similarity, top_candidates := some m.top_candidates }, s)
        | other =>
          let extracted :=
            match other with
            | some (Resolution.found bid _) => { extracted with book_id := some bid }
            | _ => extracted
          let flow := run_flow env fn_name user_id query extracted s
          let flow_state := flow.1
          let s := _log_execution env user_id session_id query fn_name m.similarity
            m.method (some flow_state.state_trace) flow_state.response
            (some m.top_candidates) flow.2
          ({ response := flow_state.response, function_name := fn_name,
             method := m.method, similarity := m.similarity,
             state_trace := some flow_state.state_trace,
             top_candidates := some m.top_candidates }, s)
      else if fn_name ∈ DIRECT_FUNCTIONS then
        let result := _execute_direct fn_name query user_id res s.current
        let books_for_frontend := _extract_books_from_result result
        let llm_context := _strip_images_for_llm result
        let response := _build_response_safe env llm_context
        let s := _log_execution env user_id session_id query fn_name m.similarity
          m.method none response (some m.top_candidates) s
        ({ response := response, function_name := fn_name, method := m.method,
           similarity := m.similarity, books := books_for_frontend,
           top_candidates := some m.top_candidates }, s)
      else
        -- `# Should not reach here`: no log is written on this path
        ({ response := "Error interno del orquestador.", function_name := fn_name,
           method := "error", similarity := m.similarity }, s)

-- ── Theorems ────────────────────────────────────────────────────────────────

/-- C3: in the embedding tier, whenever the top-ranked action's score
reaches the applicable base threshold (the multi-vector
`similarity_threshold` when per-example embeddings exist, the
`combined_similarity_threshold` otherwise) or the
`high_confidence_threshold`, `select_function` returns that top-ranked
action with the embedding method (the source's method string is
`"semantic"`); acceptance is independent of the runner-up's score (the
list `rest` and hence the gap are arbitrary), of the LLM oracle, and of
the configured `confidence_gap_threshold`. -/
theorem C3_embedding_accepts_at_threshold_regardless_of_gap
    (st : SettingsT) (scores : List (String × ℚ)) (hasIndividual : Bool)
    (llm : LLMOutcome) (bestFn : String) (bestScore : ℚ)
    (rest : List (String × ℚ))
    (hsort : sortDescBy (fun p => p.2) scores = (bestFn, bestScore) :: rest)
    (hacc : (if hasIndividual then st.similarity_threshold
             else st.combined_similarity_threshold) ≤ bestScore ∨
            st.high_confidence_threshold ≤ bestScore) :
    select_function_core st scores hasIndividual llm =
      { function_name := bestFn, similarity := bestScore, method := "semantic",
        top_candidates := ((bestFn, bestScore) :: rest).take 3 } ∧
    (∀ x ∈ scores, x.2 ≤ bestScore) ∧
    (∀ g : ℚ, select_function_core { st with confidence_gap_threshold := g }
        scores hasIndividual llm = select_function_core st scores hasIndividual llm) := by
  refine ⟨?_, ?_, ?_⟩
  · unfold select_function_core
    rw [hsort]
    dsimp only
    by_cases hh : st.high_confidence_threshold ≤ bestScore
    · simp [hh]
    · have h : (if hasIndividual then st.similarity_threshold
                else st.combined_similarity_threshold) ≤ bestScore := by
        rcases hacc with h | h
        · exact h
        · exact absurd h hh
      simp [hh, h]
  · intro x hx
    exact head_key_max_of_sortDescBy (fun p => p.2) scores _ rest hsort x hx
  · intro g
    unfold select_function_core
    rw [hsort]
    dsimp only
    by_cases hh : st.high_confidence_threshold ≤ bestScore
    · simp [hh]
    · have h : (if hasIndividual then st.similarity_threshold
                else st.combined_similarity_threshold) ≤ bestScore := by
        rcases hacc with h | h
        · exact h
        · exact absurd h hh
      simp [hh, h]

/-- Witness for C3 at a concrete input (thresholds scaled by 100 so the
kernel can evaluate them): the top score 50 clears the multi-vector base
threshold 45, so the top action is accepted with method `"semantic"`
even though the runner-up is only 1 below — a gap far under the
configured gap threshold 5. -/
theorem C3_witness :
    select_function_core
      { similarity_threshold := 45, combined_similarity_threshold := 30,
        confidence_gap_threshold := 5, high_confidence_threshold := 65 }
      [("search_books_for_sale", 50), ("check_book_stock", 49)]
      true LLMOutcome.failure =
      { function_name := "search_books_for_sale", similarity := 50,
        method := "semantic",
        top_candidates := [("search_books_for_sale", 50),
                           ("check_book_stock", 49)] } :=
  (C3_embedding_accepts_at_threshold_regardless_of_gap
    { similarity_threshold := 45, combined_similarity_threshold := 30,
      confidence_gap_threshold := 5, high_confidence_threshold := 65 }
    [("search_books_for_sale", 50), ("check_book_stock", 49)]
    true LLMOutcome.failure "search_books_for_sale" 50
    [("check_book_stock", 49)] (by decide) (Or.inl (by decide))).1

/-- C9: the generative fallback tier is consulted only when the top
embedding score is at least 0.25 and below the applicable base threshold
(the hypothesis `hth`, satisfied by the source's default configuration,
orders the base threshold below the high-confidence threshold); outside
that window the result does not depend on the provider at all.  Within
it, a provider failure or a returned name that is `"NONE"` or not among
the offered actions is treated as no match, never propagated, and the
resolver returns the empty action with method `"clarification"`. -/
theorem C9_llm_fallback_window_and_failure_containment
    (st : SettingsT) (scores : List (String × ℚ)) (hasIndividual : Bool)
    (bestFn : String) (bestScore : ℚ) (rest : List (String × ℚ))
    (hsort : sortDescBy (fun p => p.2) scores = (bestFn, bestScore) :: rest)
    (hth : (if hasIndividual then st.similarity_threshold
            else st.combined_similarity_threshold) ≤ st.high_confidence_threshold) :
    (∀ llm1 llm2 : LLMOutcome,
      ¬ ((25 : ℚ)/100 ≤ bestScore ∧
         bestScore < (if hasIndividual then st.similarity_threshold
                      else st.combined_similarity_threshold)) →
      select_function_core st scores hasIndividual llm1 =
        select_function_core st scores hasIndividual llm2) ∧
    (bestScore < (if hasIndividual then st.similarity_threshold
                  else st.combined_similarity_threshold) →
      select_function_core st scores hasIndividual LLMOutcome.failure =
        { function_name := "", similarity := bestScore, method := "clarification",
          top_candidates := ((bestFn, bestScore) :: rest).take 3 }) ∧
    (∀ r : String, (r = "NONE" ∨ r ∉ scores.map (fun p => p.1)) →
      bestScore < (if hasIndividual then st.similarity_threshold
                   else st.combined_similarity_threshold) →
      select_function_core st scores hasIndividual (LLMOutcome.returns r) =
        { function_name := "", similarity := bestScore, method := "clarification",
          top_candidates := ((bestFn, bestScore) :: rest).take 3 }) := by
  refine ⟨?_, ?_, ?_⟩
  · intro llm1 llm2 hout
    unfold select_function_core
    rw [hsort]
    dsimp only
    by_cases hh : st.high_confidence_threshold ≤ bestScore
    · simp [hh]
    · simp only [if_neg hh]
      by_cases ht : (if hasIndividual then st.similarity_threshold
                     else st.combined_similarity_threshold) ≤ bestScore
      · simp [ht]
      · simp only [if_neg ht]
        have hlow : ¬ (25 : ℚ)/100 ≤ bestScore := by
          intro hc
          exact hout ⟨hc, lt_of_not_le ht⟩
        simp [hlow]
  · intro hlt
    have hh : ¬ st.high_confidence_threshold ≤ bestScore := by
      intro hc
      exact absurd (lt_of_lt_of_le hlt hth) (not_lt_of_le hc)
    have ht : ¬ (if hasIndividual then st.similarity_threshold
                 else st.combined_similarity_threshold) ≤ bestScore :=
      not_le_of_lt hlt
    unfold select_function_core
    rw [hsort]
    dsimp only
    simp only [if_neg hh, if_neg ht]
    by_cases hlow : (25 : ℚ)/100 ≤ bestScore
    · simp [hlow, classify_intent]
    · simp [hlow]
  · intro r hr hlt
    have hh : ¬ st.high_confidence_threshold ≤ bestScore := by
      intro hc
      exact absurd (lt_of_lt_of_le hlt hth) (not_lt_of_le hc)
    have ht : ¬ (if hasIndividual then st.similarity_threshold
                 else st.combined_similarity_threshold) ≤ bestScore :=
      not_le_of_lt hlt
    unfold select_function_core
    rw [hsort]
    dsimp only
    simp only [if_neg hh, if_neg ht]
    by_cases hlow : (25 : ℚ)/100 ≤ bestScore
    · simp only [hlow, if_true, classify_intent]
      rw [if_pos hr]
    · simp [hlow]

/-- Witness for C9 at a concrete input (thresholds scaled by 100 so the
kernel can evaluate them): a top multi-vector score of 30 lies inside
the fallback window `[0.25, 45)`, and both a provider failure and a
returned name not among the offered actions yield the clarification
match. -/
theorem C9_witness :
    select_function_core
      { similarity_threshold := 45, combined_similarity_threshold := 30,
        confidence_gap_threshold := 5, high_confidence_threshold := 65 }
      [("add_book_to_cart", 30)] true LLMOutcome.failure =
      { function_name := "", similarity := 30, method := "clarification",
        top_candidates := [("add_book_to_cart", 30)] } ∧
    select_function_core
      { similarity_threshold := 45, combined_similarity_threshold := 30,
        confidence_gap_threshold := 5, high_confidence_threshold := 65 }
      [("add_book_to_cart", 30)] true (LLMOutcome.returns "view_cart") =
      { function_name := "", similarity := 30, method := "clarification",
        top_candidates := [("add_book_to_cart", 30)] } := by
  have h := C9_llm_fallback_window_and_failure_containment
    { similarity_threshold := 45, combined_similarity_threshold := 30,
      confidence_gap_threshold := 5, high_confidence_threshold := 65 }
    [("add_book_to_cart", 30)] true "add_book_to_cart" 30 []
    (by decide) (by decide)
  exact ⟨h.2.1 (by decide), h.2.2 "view_cart" (Or.inr (by decide)) (by decide)⟩

/-- C4: an `add_book_to_cart` flow run whose requested quantity exceeds
the stock of the resolved book returns the stock-insufficient failure
outcome and performs no mutation at all: starting from a session with no
pending changes, the final session is unchanged (no cart created, no
cart item inserted or updated, no stock change), no error is recorded,
and the user-facing response is the refusal message. -/
theorem C4_add_to_cart_insufficient_stock_no_mutation
    (env : Env) (db : DB) (user_id : Nat) (query : String) (params : Params)
    (bid : Nat) (b : Book) (q : Int)
    (hbid : params.book_id = some bid) (hbid0 : bid ≠ 0)
    (hbook : getBook db bid = some b)
    (hq : params.quantity = some q) (hq0 : q ≠ 0)
    (hstock : b.stock < q) :
    (run_flow env "add_book_to_cart" user_id query params (Session.clean db)).1.action_result =
      { success := some false, message := some "Stock insuficiente" } ∧
    (run_flow env "add_book_to_cart" user_id query params (Session.clean db)).1.error = none ∧
    (run_flow env "add_book_to_cart" user_id query params (Session.clean db)).1.response =
      "Stock insuficiente" ∧
    (run_flow env "add_book_to_cart" user_id query params (Session.clean db)).2 =
      Session.clean db := by
  simp [run_flow, validate_input, load_context, apply_action, persist_state,
    build_response, _action_add_to_cart, build_transactional_response, successTruthy,
    TRANSACTIONAL_ACTIONS, truthyNat, truthyInt, hbid, hq, hbook, hbid0, hq0, hstock,
    Session.clean, Session.commit, Session.rollback]

/-- The sample book used by the C4 witness: "Dune" with stock 5. -/
def duneStock5 : Book :=
  { id := 1, title := "Dune", author := "Frank Herbert",
    genre := "Ciencia Ficción", price := 15, stock := 5 }

/-- Witness for C4: requesting 30 copies of a book with stock 5 refuses
with "Stock insuficiente" and leaves the database untouched. -/
theorem C4_witness :
    (run_flow { payment_approved := true } "add_book_to_cart" 1 "q"
        { book_id := some 1, quantity := some 30 }
        (Session.clean { books := [duneStock5] })).1.response = "Stock insuficiente" ∧
    (run_flow { payment_approved := true } "add_book_to_cart" 1 "q"
        { book_id := some 1, quantity := some 30 }
        (Session.clean { books := [duneStock5] })).2 =
      Session.clean { books := [duneStock5] } := by
  have h := C4_add_to_cart_insufficient_stock_no_mutation
    { payment_approved := true } { books := [duneStock5] }
    1 "q" { book_id := some 1, quantity := some 30 } 1 duneStock5 30
    rfl (by decide) rfl rfl (by decide) (by decide)
  exact ⟨h.2.2.1, h.2.2.2⟩

/-- Setting the first order with id `oid` to the status it already has is
a no-op. -/
theorem setOrderStatus_of_find (l : List OrderRec) (oid : Nat) (st : String)
    (o : OrderRec) (hf : l.find? (fun r => r.id == oid) = some o)
    (hst : o.status = st) : setOrderStatus l oid st = l := by
  induction l with
  | nil => simp at hf
  | cons a as ih =>
    simp only [List.find?] at hf
    by_cases hp : (a.id == oid) = true
    · simp only [hp] at hf
      simp only [Option.some.injEq] at hf
      subst hf
      simp only [setOrderStatus, hp, if_pos]
      rw [← hst]
    · simp only [Bool.not_eq_true] at hp
      simp only [hp] at hf
      simp only [setOrderStatus, hp, Bool.false_eq_true, if_false]
      rw [ih hf]

/-- Orders with a different id are untouched by `setOrderStatus`. -/
theorem setOrderStatus_frame (l : List OrderRec) (oid : Nat) (st : String) :
    ∀ r ∈ l, r.id ≠ oid → r ∈ setOrderStatus l oid st := by
  induction l with
  | nil => simp
  | cons a as ih =>
    intro r hr hne
    rcases List.mem_cons.mp hr with h1 | h1
    · subst h1
      simp only [setOrderStatus]
      split
      · next hcond => exact absurd (eq_of_beq hcond) hne
      · exact List.mem_cons_self r _
    · simp only [setOrderStatus]
      split
      · exact List.mem_cons_of_mem _ h1
      · exact List.mem_cons_of_mem _ (ih r h1 hne)

/-- The database produced by an approved payment on a `"created"` order. -/
def paidResultDb (db : DB) (oc : OrderCtx) : DB :=
  { db with
    payments := db.payments ++
      [{ order_id := oc.id, amount := oc.total, status := "approved" }],
    orders := setOrderStatus db.orders oc.id "paid" }

/-- The database produced by a rejected payment on a `"created"` order:
the payment row is recorded, the order status is unchanged. -/
def rejectedResultDb (db : DB) (oc : OrderCtx) : DB :=
  { db with
    payments := db.payments ++
      [{ order_id := oc.id, amount := oc.total, status := "rejected" }] }

/-- The rejection message reported by `_action_process_payment`. -/
def rejectionMsg (oc : OrderCtx) : String :=
  "El pago para la orden **#" ++ toString oc.id ++ "** fue rechazado. Intenta de nuevo."

/-- C5: the order state machine enforced by the payment-confirmation
prompt (`process_payment`), the payment execution (`confirm_payment`)
and the cancellation, for a context loaded consistently with the
database (the `ctx.order` snapshot matches the stored row, as
`load_context` guarantees within one run) and no driver fault:
an order in `"created"` state moves to `"paid"` exactly on an approved
payment; a rejected payment leaves it `"created"` and reports the
rejection; cancellation moves it to `"cancelled"`; once `"paid"` or
`"cancelled"` each of the three actions refuses (`success = false`,
no confirmation prompt) and leaves the orders table untouched; and
orders with a different id are never affected. -/
theorem C5_order_status_machine
    (env : Env) (db : DB) (ctx : Ctx) (oc : OrderCtx) (o : OrderRec)
    (hctx : ctx.order = some oc)
    (hdb : getOrderById db oc.id = some o)
    (hst : o.status = oc.status)
    (hnf : env.fault_at = none) :
    (oc.status = "created" → env.payment_approved = true →
      _action_process_payment env ctx db =
        (Except.ok
          { success := some true, payment_status := some "approved",
            order_id := some oc.id, amount := some oc.total },
         paidResultDb db oc)) ∧
    (oc.status = "created" → env.payment_approved = false →
      _action_process_payment env ctx db =
        (Except.ok
          { success := some false, payment_status := some "rejected",
            order_id := some oc.id, amount := some oc.total,
            message := some (rejectionMsg oc) },
         rejectedResultDb db oc)) ∧
    (oc.status = "created" →
      _action_cancel_order env ctx db =
        (Except.ok { success := some true, order_id := some oc.id },
         { db with orders := setOrderStatus db.orders oc.id "cancelled" })) ∧
    (oc.status = "paid" ∨ oc.status = "cancelled" →
      (_action_process_payment env ctx db).2 = db ∧
      ((_action_process_payment env ctx db).1.toOption.bind (fun r => r.success)) = some false ∧
      (_action_cancel_order env ctx db).2 = db ∧
      ((_action_cancel_order env ctx db).1.toOption.bind (fun r => r.success)) = some false ∧
      (_build_payment_confirmation ctx).success = some false ∧
      (_build_payment_confirmation ctx).needs_confirmation = none) ∧
    (∀ r ∈ db.orders, r.id ≠ oc.id →
      r ∈ (_action_process_payment env ctx db).2.orders ∧
      r ∈ (_action_cancel_order env ctx db).2.orders) := by
  have hfault : dbFault env 0 = false := by simp [dbFault, hnf]
  have hfind : List.find? (fun r => r.id == oc.id) db.orders = some o := hdb
  refine ⟨?_, ?_, ?_, ?_, ?_⟩
  · intro hcr hap
    simp [_action_process_payment, paidResultDb, hctx, hcr, hap, hfault,
      getOrderById, hfind]
  · intro hcr hap
    have hnoop : setOrderStatus db.orders oc.id "created" = db.orders :=
      setOrderStatus_of_find db.orders oc.id "created" o hdb (by rw [hst, hcr])
    simp [_action_process_payment, rejectedResultDb, rejectionMsg, hctx, hcr,
      hap, hfault, getOrderById, hfind, hnoop]
  · intro hcr
    simp [_action_cancel_order, hctx, hcr, hfault, getOrderById, hfind]
  · intro hp
    rcases hp with hp | hp <;>
      refine ⟨?_, ?_, ?_, ?_, ?_, ?_⟩ <;>
        simp [_action_process_payment, _action_cancel_order,
          _build_payment_confirmation, hctx, hp, Except.toOption, Option.bind]
  · intro r hr hne
    constructor
    · by_cases hcr : oc.status = "created"
      · cases hap : env.payment_approved
        · have h2 : (_action_process_payment env ctx db).2 = rejectedResultDb db oc := by
            have hnoop : setOrderStatus db.orders oc.id "created" = db.orders :=
              setOrderStatus_of_find db.orders oc.id "created" o hdb (by rw [hst, hcr])
            simp [_action_process_payment, rejectedResultDb, hctx, hcr, hap,
              hfault, getOrderById, hfind, hnoop]
          rw [h2]
          exact hr
        · have h2 : (_action_process_payment env ctx db).2 = paidResultDb db oc := by
            simp [_action_process_payment, paidResultDb, hctx, hcr, hap, hfault,
              getOrderById, hfind]
          rw [h2]
          exact setOrderStatus_frame db.orders oc.id "paid" r hr hne
      · have h2 : (_action_process_payment env ctx db).2 = db := by
          simp only [_action_process_payment, hctx]
          by_cases h1 : oc.status = "paid"
          · simp [h1]
          · by_cases h3 : oc.status = "cancelled"
            · simp [h1, h3]
            · simp [h1, h3, hcr]
        rw [h2]
        exact hr
    · by_cases hpd : oc.status = "paid"
      · have h2 : (_action_cancel_order env ctx db).2 = db := by
          simp [_action_cancel_order, hctx, hpd]
        rw [h2]
        exact hr
      · by_cases hcc : oc.status = "cancelled"
        · have h2 : (_action_cancel_order env ctx db).2 = db := by
            simp [_action_cancel_order, hctx, hpd, hcc]
          rw [h2]
          exact hr
        · have h2 : (_action_cancel_order env ctx db).2 =
              { db with orders := setOrderStatus db.orders oc.id "cancelled" } := by
            simp [_action_cancel_order, hctx, hpd, hcc, hfault, getOrderById, hfind]
          rw [h2]
          exact setOrderStatus_frame db.orders oc.id "cancelled" r hr hne
/-- The order used by the C5 witness: order 7, `"created"`, total 15. -/
def order7 : OrderRec :=
  { id := 7, user_id := 1, status := "created", total := 15, created_at := 0 }

/-- Witness for C5: on order 7 in `"created"` state, an approved payment
execution sets it `"paid"` (recording an approved payment row), and a
cancellation sets it `"cancelled"`. -/
theorem C5_witness :
    _action_process_payment { payment_approved := true }
      { order := some { id := 7, status := "created", total := 15 } }
      { orders := [order7] } =
      (Except.ok
        { success := some true, payment_status := some "approved",
          order_id := some 7, amount := some 15 },
       paidResultDb { orders := [order7] } { id := 7, status := "created", total := 15 }) ∧
    _action_cancel_order { payment_approved := true }
      { order := some { id := 7, status := "created", total := 15 } }
      { orders := [order7] } =
      (Except.ok { success := some true, order_id := some 7 },
       { orders := setOrderStatus [order7] 7 "cancelled" }) := by
  have h := C5_order_status_machine { payment_approved := true }
    { orders := [order7] }
    { order := some { id := 7, status := "created", total := 15 } }
    { id := 7, status := "created", total := 15 } order7 rfl rfl rfl rfl
  exact ⟨h.1 rfl rfl, h.2.2.1 rfl⟩

-- Structural lemmas about the flow nodes, used by C6, C7 and C10.

theorem apply_action_trace (env : Env) (st : FlowState) (db : DB) :
    (apply_action env st db).1.state_trace = st.state_trace ++ ["APPLY_ACTION"] := by
  unfold apply_action
  dsimp only
  split <;> rfl

theorem apply_action_needs_input (env : Env) (st : FlowState) (db : DB) :
    (apply_action env st db).1.needs_input = st.needs_input := by
  unfold apply_action
  dsimp only
  split <;> rfl

theorem build_response_error (env : Env) (st : FlowState) :
    (build_response env st).error = st.error := rfl

theorem build_response_needs_input (env : Env) (st : FlowState) :
    (build_response env st).needs_input = st.needs_input := rfl

theorem persist_state_fields (env : Env) (st : FlowState) (s : Session) :
    (persist_state env st s).1.state_trace = st.state_trace ++ ["PERSIST"] ∧
    (persist_state env st s).1.error = st.error ∧
    (persist_state env st s).1.needs_input = st.needs_input := by
  unfold persist_state
  dsimp only
  split <;> exact ⟨rfl, rfl, rfl⟩

theorem validate_input_trace (st : FlowState) :
    (validate_input st).state_trace = st.state_trace ++ ["VALIDATE_INPUT"] := by
  unfold validate_input
  dsimp only
  repeat' split
  all_goals rfl

theorem validate_input_error (st : FlowState) :
    (validate_input st).error = st.error := by
  unfold validate_input
  dsimp only
  repeat' split
  all_goals rfl

/-- The final `needs_input` flag of a flow run is the one computed by
`validate_input` on the initial state. -/
theorem run_flow_needs_input (env : Env) (fn : String) (uid : Nat) (q : String)
    (params : Params) (s : Session) :
    (run_flow env fn uid q params s).1.needs_input =
      (validate_input { user_id := uid, function_name := fn, query := q, params := params }).needs_input := by
  unfold run_flow
  dsimp only
  by_cases hni : (validate_input { user_id := uid, function_name := fn, query := q, params := params : FlowState }).needs_input
  · simp [hni]
  · simp only [Bool.not_eq_true] at hni
    simp only [hni, Bool.false_eq_true, if_false]
    rw [build_response_needs_input]
    split
    · rw [apply_action_needs_input]
      exact hni
    · rw [(persist_state_fields env _ _).2.2, apply_action_needs_input]
      exact hni

/-- C7: a flow run with a missing required field — `add_book_to_cart` or
`remove_book_from_cart` without a truthy resolved book id, `cancel_order`
without a truthy order id — sets `needs_input` with the missing-field
list, answers with the human-readable request for those fields, and
terminates without touching storage, visiting only
`VALIDATE_INPUT → ASK_INPUT`; this is the only path that bypasses
`LOAD_CONTEXT`, `APPLY_ACTION` and `PERSIST` (every run that does not
ask for input visits `LOAD_CONTEXT` and `APPLY_ACTION`); the two
payment actions never ask for input, and a missing (falsy) quantity for
`add_book_to_cart` instead defaults to 1. -/
theorem C7_missing_fields_ask_input (env : Env) (fn : String) (uid : Nat)
    (q : String) (params : Params) (s : Session) :
    ((run_flow env fn uid q params s).1.needs_input = true →
      (run_flow env fn uid q params s).2 = s ∧
      (run_flow env fn uid q params s).1.state_trace = ["VALIDATE_INPUT", "ASK_INPUT"] ∧
      (run_flow env fn uid q params s).1.response =
        "Para continuar, necesito que me indiques " ++
          String.intercalate ", "
            ((run_flow env fn uid q params s).1.missing_fields.map fieldName) ++ ".") ∧
    ((run_flow env fn uid q params s).1.needs_input = false →
      "LOAD_CONTEXT" ∈ (run_flow env fn uid q params s).1.state_trace ∧
      "APPLY_ACTION" ∈ (run_flow env fn uid q params s).1.state_trace) ∧
    (fn = "add_book_to_cart" →
      ((run_flow env fn uid q params s).1.needs_input = (!truthyNat params.book_id)) ∧
      ((run_flow env fn uid q params s).1.needs_input = true →
        (run_flow env fn uid q params s).1.missing_fields = ["book_id"]) ∧
      (truthyInt params.quantity = false →
        (run_flow env fn uid q params s).1.params.quantity = some 1)) ∧
    (fn = "remove_book_from_cart" →
      (run_flow env fn uid q params s).1.needs_input = (!truthyNat params.book_id)) ∧
    (fn = "cancel_order" →
      (run_flow env fn uid q params s).1.needs_input = (!truthyNat params.order_id)) ∧
    ((fn = "process_payment" ∨ fn = "confirm_payment") →
      (run_flow env fn uid q params s).1.needs_input = false) := by
  refine ⟨?_, ?_, ?_, ?_, ?_, ?_⟩
  · intro hni
    rw [run_flow_needs_input] at hni
    have hrw : run_flow env fn uid q params s =
        ({ validate_input { user_id := uid, function_name := fn, query := q, params := params } with
            response := "Para continuar, necesito que me indiques " ++ String.intercalate ", " ((validate_input { user_id := uid, function_name := fn, query := q, params := params } : FlowState).missing_fields.map fieldName) ++ ".",
            state_trace := (validate_input { user_id := uid, function_name := fn, query := q, params := params } : FlowState).state_trace ++ ["ASK_INPUT"] }, s) := by
      unfold run_flow
      dsimp only
      rw [if_pos hni]
    rw [hrw]
    refine ⟨rfl, ?_, rfl⟩
    simp [validate_input_trace]
  · intro hni
    rw [run_flow_needs_input] at hni
    unfold run_flow
    dsimp only
    simp only [hni, Bool.false_eq_true, if_false]
    constructor
    all_goals
      rw [show ∀ st : FlowState, (build_response env st).state_trace =
            st.state_trace ++ ["BUILD_RESPONSE"] from fun _ => rfl]
      split
    all_goals
      first
        | (rw [apply_action_trace]
           simp [load_context, validate_input_trace])
        | (rw [(persist_state_fields env _ _).1, apply_action_trace]
           simp [load_context, validate_input_trace])
  · intro hfn
    subst hfn
    refine ⟨?_, ?_, ?_⟩
    · rw [run_flow_needs_input]
      simp [validate_input]
      split <;> simp_all
    · intro hni
      have h2 := run_flow_needs_input env "add_book_to_cart" uid q params s
      rw [hni] at h2
      unfold run_flow
      dsimp only
      rw [← h2]
      simp only [hni, if_true]
      simp [validate_input] at h2 ⊢
      split at h2 <;> simp_all [validate_input]
    · intro hq
      have hval : (validate_input { user_id := uid, function_name := "add_book_to_cart", query := q, params := params : FlowState }).params.quantity = some 1 := by
        simp [validate_input, hq]
        split <;> rfl
      unfold run_flow
      dsimp only
      split
      · exact hval
      · rw [show ∀ st : FlowState, (build_response env st).params = st.params
            from fun _ => rfl]
        split
        · rw [show ∀ (st : FlowState) (db : DB),
                (apply_action env st db).1.params = st.params from ?_]
          · exact hval
          · intro st db
            unfold apply_action
            dsimp only
            split <;> rfl
        · rw [show ∀ (st : FlowState) (s2 : Session),
                (persist_state env st s2).1.params = st.params from ?_]
          · rw [show ∀ (st : FlowState) (db : DB),
                  (apply_action env st db).1.params = st.params from ?_]
            · exact hval
            · intro st db
              unfold apply_action
              dsimp only
              split <;> rfl
          · intro st s2
            unfold persist_state
            dsimp only
            split <;> rfl
  · intro hfn
    subst hfn
    rw [run_flow_needs_input]
    simp [validate_input]
    split <;> simp_all
  · intro hfn
    subst hfn
    rw [run_flow_needs_input]
    simp [validate_input]
    split <;> simp_all
  · intro hfn
    rw [run_flow_needs_input]
    rcases hfn with hfn | hfn <;> subst hfn <;> simp [validate_input]

/-- Witness for C7: `cancel_order` with no extracted order id asks for
"el número de orden", visits only `VALIDATE_INPUT → ASK_INPUT`, and
leaves the session untouched. -/
theorem C7_witness :
    (run_flow { payment_approved := true } "cancel_order" 1 "q" {}
        (Session.clean {})).1.state_trace = ["VALIDATE_INPUT", "ASK_INPUT"] ∧
    (run_flow { payment_approved := true } "cancel_order" 1 "q" {}
        (Session.clean {})).1.response =
      "Para continuar, necesito que me indiques el número de orden." ∧
    (run_flow { payment_approved := true } "cancel_order" 1 "q" {}
        (Session.clean {})).2 = Session.clean {} := by
  have h := C7_missing_fields_ask_input { payment_approved := true }
    "cancel_order" 1 "q" {} (Session.clean {})
  have hni : (run_flow { payment_approved := true } "cancel_order" 1 "q" {}
      (Session.clean {})).1.needs_input = true := by decide
  refine ⟨(h.1 hni).2.1, ?_, (h.1 hni).1⟩
  rw [(h.1 hni).2.2]
  decide

/-- C6 (amended): whenever a flow run ends with a recorded action error
(a truthy error string, as set by `apply_action` when the action raised),
the run went `VALIDATE_INPUT → LOAD_CONTEXT → APPLY_ACTION →
BUILD_RESPONSE` with no `PERSIST` entry, the response names the error,
and the flow engine itself commits nothing (the committed snapshot is
unchanged).  The original claim's final clause — that the failed
action's database changes are never committed — is false: the audit-log
write that follows the flow run commits the shared session, which can
persist partial changes the action made before raising (see the
counterexample). -/
theorem C6_amended_apply_error_skips_persist
    (env : Env) (fn : String) (uid : Nat) (q : String) (params : Params)
    (s : Session) (e : String)
    (he : (run_flow env fn uid q params s).1.error = some e) (hne : e ≠ "") :
    (run_flow env fn uid q params s).1.state_trace =
      ["VALIDATE_INPUT", "LOAD_CONTEXT", "APPLY_ACTION", "BUILD_RESPONSE"] ∧
    "PERSIST" ∉ (run_flow env fn uid q params s).1.state_trace ∧
    (run_flow env fn uid q params s).1.response =
      "Hubo un error al procesar tu solicitud: " ++ e ∧
    (run_flow env fn uid q params s).2.committed = s.committed := by
  unfold run_flow at he ⊢
  dsimp only at he ⊢
  by_cases hni : (validate_input { user_id := uid, function_name := fn, query := q, params := params : FlowState }).needs_input
  · exfalso
    rw [if_pos hni] at he
    dsimp only at he
    rw [validate_input_error] at he
    simp at he
  · rw [if_neg (by simp [hni])] at he ⊢
    by_cases herr : ((apply_action env (load_context (validate_input { user_id := uid, function_name := fn, query := q, params := params : FlowState }) s.current) s.current).1.error.getD "" ≠ "")
    · rw [if_pos herr] at he ⊢
      rw [build_response_error] at he
      have htrace : (build_response env (apply_action env (load_context (validate_input { user_id := uid, function_name := fn, query := q, params := params : FlowState }) s.current) s.current).1).state_trace =
          ["VALIDATE_INPUT", "LOAD_CONTEXT", "APPLY_ACTION", "BUILD_RESPONSE"] := by
        rw [show ∀ st : FlowState, (build_response env st).state_trace =
              st.state_trace ++ ["BUILD_RESPONSE"] from fun _ => rfl]
        rw [apply_action_trace]
        simp [load_context, validate_input_trace]
      refine ⟨htrace, ?_, ?_, rfl⟩
      · rw [htrace]
        decide
      · rw [show ∀ st : FlowState, (build_response env st).response =
              (if st.error.getD "" ≠ "" then
                "Hubo un error al procesar tu solicitud: " ++ st.error.getD ""
               else if st.function_name ∈ TRANSACTIONAL_ACTIONS then
                build_transactional_response st.function_name st.action_result
               else match env.llm_natural with
                | some r => r
                | none => _build_fallback_response_flow st.function_name st.action_result)
              from fun _ => rfl]
        rw [if_pos herr, he]
        rfl
    · exfalso
      rw [if_neg herr] at he
      rw [build_response_error, (persist_state_fields env _ _).2.1] at he
      exact herr (by rw [he]; exact hne)

/-- The cart-creating driver fault used by the C6 counterexample: the
action raises at driver call 1 (the cart-item `SELECT`), after the new
cart was already added and flushed. -/
def faultEnvC6 : Env :=
  { payment_approved := true, fault_at := some 1,
    fault_msg := "unexpected error" }

/-- The resolver oracle used by the C6 counterexample: the rule tier
matched `add_book_to_cart` (pattern `al\s+carrito`). -/
def ruleMatchAdd : ResolverOracle :=
  { semantic_match := { function_name := "add_book_to_cart", similarity := 1, method := "rule" } }

/-- C6 counterexample: the claim's clause "the failed action's database
changes are not committed" fails on the code.  User 1 adds "Dune" with
no active cart; the action creates and flushes a new cart, then the next
driver call raises.  The flow correctly skips `PERSIST` and apologises,
but `handle_query` then writes the audit log on the same session and
commits it, which also commits the cart row the failed action had
created: the final committed snapshot contains the new cart. -/
theorem C6_counterexample_log_commit_persists_partial_changes :
    (handle_query faultEnvC6 ruleMatchAdd "agrega Dune al carrito" 1 none
        (Session.clean { books := [duneStock5] })).1.state_trace =
      some ["VALIDATE_INPUT", "LOAD_CONTEXT", "APPLY_ACTION", "BUILD_RESPONSE"] ∧
    (handle_query faultEnvC6 ruleMatchAdd "agrega Dune al carrito" 1 none
        (Session.clean { books := [duneStock5] })).1.response =
      "Hubo un error al procesar tu solicitud: unexpected error" ∧
    (handle_query faultEnvC6 ruleMatchAdd "agrega Dune al carrito" 1 none
        (Session.clean { books := [duneStock5] })).2.committed.carts =
      [{ id := 1, user_id := 1, status := "active" }] := by
  refine ⟨?_, ?_, ?_⟩ <;> decide

/-- Witness for the amended C6 at a concrete input: a driver fault during
the cart-item lookup of `add_book_to_cart` yields the
`VALIDATE_INPUT → LOAD_CONTEXT → APPLY_ACTION → BUILD_RESPONSE` trace
with no `PERSIST`, an apology naming the error, and an unchanged
committed snapshot within the flow engine itself. -/
theorem C6_witness :
    (run_flow faultEnvC6 "add_book_to_cart" 1 "q" { book_id := some 1 }
        (Session.clean { books := [duneStock5] })).1.state_trace =
      ["VALIDATE_INPUT", "LOAD_CONTEXT", "APPLY_ACTION", "BUILD_RESPONSE"] ∧
    (run_flow faultEnvC6 "add_book_to_cart" 1 "q" { book_id := some 1 }
        (Session.clean { books := [duneStock5] })).1.response =
      "Hubo un error al procesar tu solicitud: unexpected error" ∧
    (run_flow faultEnvC6 "add_book_to_cart" 1 "q" { book_id := some 1 }
        (Session.clean { books := [duneStock5] })).2.committed =
      { books := [duneStock5] } := by
  have h := C6_amended_apply_error_skips_persist faultEnvC6 "add_book_to_cart"
    1 "q" { book_id := some 1 } (Session.clean { books := [duneStock5] })
    "unexpected error" (by decide) (by decide)
  exact ⟨h.1, h.2.2.1, h.2.2.2⟩

-- ── C8: the entity-resolution cascade ───────────────────────────────────────

/-- First sample book for the C8 counterexample. -/
def dunaUno : Book :=
  { id := 1, title := "Duna Uno", author := "A", genre := "g", price := 1, stock := 1 }

/-- Second sample book for the C8 counterexample. -/
def dunaDos : Book :=
  { id := 2, title := "Duna Dos", author := "B", genre := "g", price := 1, stock := 1 }

/-- C8 counterexample: for the query `"duna"` (keywords `["duna"]`, as
`_extract_keywords` returns for it) against a catalog of two books both
matching the single keyword, no title occurs in the query and the two
books tie at the top keyword score — the claim then requires
`ambiguous` — yet the resolver returns `found` for the first book: the
score equals the number of keywords, so the AND tier fires before the
tie check. -/
theorem C8_counterexample_full_coverage_tie_returns_found :
    keywordScore ["duna"] dunaUno = keywordScore ["duna"] dunaDos ∧
    exactMatches (strLower "duna") [dunaUno, dunaDos] = [] ∧
    scoredBooks ["duna"] [dunaUno, dunaDos] = [(dunaUno, 1), (dunaDos, 1)] ∧
    _resolve_book_smart "duna" ["duna"] [dunaUno, dunaDos] =
      Resolution.found 1 dunaUno := by
  refine ⟨?_, ?_, ?_, ?_⟩ <;> decide

/-- Every entry of `scoredBooks` is a catalog book paired with its
positive keyword score. -/
theorem scoredBooks_mem (keywords : List String) (books : List Book) :
    ∀ p ∈ scoredBooks keywords books,
      p.2 = keywordScore keywords p.1 ∧ 0 < p.2 ∧ p.1 ∈ books := by
  intro p hp
  rw [scoredBooks, mem_sortDescBy] at hp
  simp only [List.mem_filterMap] at hp
  obtain ⟨b, hb, hbp⟩ := hp
  by_cases h : 0 < keywordScore keywords b
  · simp only [h, if_pos] at hbp
    cases hbp
    exact ⟨rfl, h, hb⟩
  · simp [h] at hbp

/-- C8 (amended): the three-tier cascade of `_resolve_book_smart`, for a
non-empty catalog.  TIER 1: when at least one title occurs
case-insensitively inside the query, the result is `found` with a
longest such title.  Keyword tiers: when the top scorer's count equals
the number of keywords the result is `found` for that top scorer — even
when other books tie at the same full-coverage score (this AND tier is
the correction to the original claim, which required `ambiguous` on any
tie); otherwise a sole scorer or a strict top scorer is `found`, and a
tied top score yields `ambiguous` with at most five candidates, all
carrying the top keyword score.  `not_found` holds exactly when every
tier is exhausted: no exact title hit and no keywords or no scoring
book. -/
theorem C8_amended_cascade_characterisation
    (query : String) (keywords : List String) (books : List Book)
    (hbooks : books ≠ []) :
    (∀ e es, exactMatches (strLower query) books = e :: es →
      _resolve_book_smart query keywords books =
        Resolution.found (pyMaxBy (fun bk => bk.title.length) e es).id
          (pyMaxBy (fun bk => bk.title.length) e es) ∧
      pyMaxBy (fun bk => bk.title.length) e es ∈ exactMatches (strLower query) books ∧
      (∀ c ∈ exactMatches (strLower query) books,
        c.title.length ≤ (pyMaxBy (fun bk => bk.title.length) e es).title.length)) ∧
    (exactMatches (strLower query) books = [] →
      ∀ bb bc restSc, scoredBooks keywords books = (bb, bc) :: restSc →
        (bc = keywords.length →
          _resolve_book_smart query keywords books = Resolution.found bb.id bb) ∧
        (bc ≠ keywords.length → restSc = [] →
          _resolve_book_smart query keywords books = Resolution.found bb.id bb) ∧
        (∀ b2 c2 rest2, bc ≠ keywords.length → restSc = (b2, c2) :: rest2 →
          c2 < bc →
          _resolve_book_smart query keywords books = Resolution.found bb.id bb) ∧
        (∀ b2 c2 rest2, bc ≠ keywords.length → restSc = (b2, c2) :: rest2 →
          ¬ c2 < bc →
          c2 = bc ∧
          _resolve_book_smart query keywords books =
            Resolution.ambiguous ((((bb, bc) :: restSc).take 5).filterMap
              (fun p => if p.2 = bc then some p.1 else none)) ∧
          ((((bb, bc) :: restSc).take 5).filterMap
              (fun p => if p.2 = bc then some p.1 else none)).length ≤ 5 ∧
          (∀ bk ∈ (((bb, bc) :: restSc).take 5).filterMap
              (fun p => if p.2 = bc then some p.1 else none),
            keywordScore keywords bk = bc) ∧
          (∀ p ∈ scoredBooks keywords books, p.2 ≤ bc))) ∧
    (_resolve_book_smart query keywords books = Resolution.not_found ↔
      exactMatches (strLower query) books = [] ∧
        (keywords = [] ∨ scoredBooks keywords books = [])) := by
  have hni : books.isEmpty = false := by
    cases books with
    | nil => exact absurd rfl hbooks
    | cons a l => rfl
  refine ⟨?_, ?_, ?_⟩
  · intro e es hem
    refine ⟨?_, ?_, ?_⟩
    · unfold _resolve_book_smart
      dsimp only
      rw [hni, hem]
      cases es with
      | nil => rfl
      | cons e2 es2 => rfl
    · rw [hem]
      exact pyMaxBy_mem _ e es
    · rw [hem]
      exact pyMaxBy_ge _ e es
  · intro hem bb bc restSc hsc
    have hkw : keywords.isEmpty = false := by
      cases keywords with
      | nil =>
        exfalso
        have h0 := (scoredBooks_mem [] books (bb, bc)
          (by rw [hsc]; exact List.mem_cons_self _ _)).1
        have h1 := (scoredBooks_mem [] books (bb, bc)
          (by rw [hsc]; exact List.mem_cons_self _ _)).2.1
        simp [keywordScore] at h0
        omega
      | cons k ks => rfl
    refine ⟨?_, ?_, ?_, ?_⟩
    · intro hand
      unfold _resolve_book_smart
      dsimp only
      rw [hni, hem]
      simp only [hkw, Bool.false_eq_true, if_false]
      rw [hsc]
      simp [hand]
    · intro hand hrest
      subst hrest
      unfold _resolve_book_smart
      dsimp only
      rw [hni, hem]
      simp only [hkw, Bool.false_eq_true, if_false]
      rw [hsc]
      simp [hand]
    · intro b2 c2 rest2 hand hrest hlt
      subst hrest
      unfold _resolve_book_smart
      dsimp only
      rw [hni, hem]
      simp only [hkw, Bool.false_eq_true, if_false]
      rw [hsc]
      simp [hand, hlt]
    · intro b2 c2 rest2 hand hrest hnlt
      subst hrest
      have hpw : ((bb, bc) :: (b2, c2) :: rest2).Pairwise
          (fun a b : Book × Nat => b.2 ≤ a.2) := by
        have hsorted : (scoredBooks keywords books).Pairwise
            (fun a b : Book × Nat => b.2 ≤ a.2) := sortDescBy_pairwise _ _
        rw [hsc] at hsorted
        exact hsorted
      have hc2 : c2 ≤ bc := (List.pairwise_cons.mp hpw).1 (b2, c2) (List.mem_cons_self _ _)
      have hceq : c2 = bc := le_antisymm hc2 (le_of_not_lt hnlt)
      refine ⟨hceq, ?_, ?_, ?_, ?_⟩
      · unfold _resolve_book_smart
        dsimp only
        rw [hni, hem]
        simp only [hkw, Bool.false_eq_true, if_false]
        rw [hsc]
        simp [hand, hnlt]
      · calc ((((bb, bc) :: (b2, c2) :: rest2).take 5).filterMap
              (fun p => if p.2 = bc then some p.1 else none)).length
            ≤ (((bb, bc) :: (b2, c2) :: rest2).take 5).length :=
              List.length_filterMap_le _ _
          _ ≤ 5 := by
              rw [List.length_take]
              omega
      · intro bk hbk
        simp only [List.mem_filterMap] at hbk
        obtain ⟨p, hp, hpeq⟩ := hbk
        by_cases hpc : p.2 = bc
        · simp only [hpc, if_pos, Option.some.injEq] at hpeq
          have hmem : p ∈ scoredBooks keywords books := by
            rw [hsc]
            exact List.mem_of_mem_take hp
          have hps := (scoredBooks_mem keywords books p hmem).1
          rw [← hpeq, ← hps, hpc]
        · simp [hpc] at hpeq
      · intro p hp
        exact head_key_max_of_sortDescBy (fun x : Book × Nat => x.2) _ (bb, bc)
          ((b2, c2) :: rest2) hsc p ((mem_sortDescBy _ p _).mp hp)
  · constructor
    · intro hnf
      unfold _resolve_book_smart at hnf
      dsimp only at hnf
      rw [hni] at hnf
      simp only [Bool.false_eq_true, if_false] at hnf
      cases hem : exactMatches (strLower query) books with
      | nil =>
        rw [hem] at hnf
        refine ⟨rfl, ?_⟩
        by_cases hkw : keywords.isEmpty
        · left
          exact List.isEmpty_iff.mp hkw
        · simp only [hkw, Bool.false_eq_true, if_false] at hnf
          right
          cases hsc : scoredBooks keywords books with
          | nil => rfl
          | cons p ps =>
            exfalso
            rw [hsc] at hnf
            rcases p with ⟨bb, bc⟩
            by_cases h1 : bc = keywords.length
            · simp [h1] at hnf
            · simp only [h1, if_false] at hnf
              cases ps with
              | nil => simp at hnf
              | cons p2 ps2 =>
                rcases p2 with ⟨b2, c2⟩
                by_cases h2 : c2 < bc
                · simp [h2] at hnf
                · simp [h2] at hnf
      | cons e es =>
        exfalso
        rw [hem] at hnf
        cases es with
        | nil => simp at hnf
        | cons e2 es2 => simp at hnf
    · rintro ⟨hem, hrest⟩
      unfold _resolve_book_smart
      dsimp only
      rw [hni, hem]
      simp only [Bool.false_eq_true, if_false]
      rcases hrest with hkw | hsc
      · subst hkw
        rfl
      · by_cases hkw : keywords.isEmpty
        · simp [hkw]
        · simp only [hkw, Bool.false_eq_true, if_false]
          rw [hsc]

/-- Witness for the amended C8: an exact tier-1 hit resolves to "Dune";
a two-way tie below full keyword coverage resolves to `ambiguous` with
both tied candidates. -/
theorem C8_witness :
    _resolve_book_smart "agrega Dune al carrito" [] [duneStock5] =
      Resolution.found 1 duneStock5 ∧
    _resolve_book_smart "duna" ["duna", "xyz"] [dunaUno, dunaDos] =
      Resolution.ambiguous [dunaUno, dunaDos] := by
  have h1 := (C8_amended_cascade_characterisation "agrega Dune al carrito" []
    [duneStock5] (by decide)).1 duneStock5 [] (by decide)
  have h2 := ((C8_amended_cascade_characterisation "duna" ["duna", "xyz"]
    [dunaUno, dunaDos] (by decide)).2.1 (by decide) dunaUno 1 [(dunaDos, 1)]
    (by decide)).2.2.2 dunaDos 1 [] (by decide) rfl (by decide)
  exact ⟨h1.1, h2.2.1⟩

-- ── C10: no flow action touches the books table ─────────────────────────────

theorem _action_add_to_cart_books (env : Env) (uid : Nat) (params : Params)
    (ctx : Ctx) (db : DB) :
    (_action_add_to_cart env uid params ctx db).2.books = db.books := by
  unfold _action_add_to_cart
  dsimp only
  repeat' split
  all_goals rfl

theorem _action_remove_from_cart_books (env : Env) (params : Params)
    (ctx : Ctx) (db : DB) :
    (_action_remove_from_cart env params ctx db).2.books = db.books := by
  unfold _action_remove_from_cart
  dsimp only
  repeat' split
  all_goals rfl

theorem _action_checkout_books (env : Env) (uid : Nat) (ctx : Ctx) (db : DB) :
    (_action_checkout env uid ctx db).2.books = db.books := by
  unfold _action_checkout
  dsimp only
  repeat' split
  all_goals rfl

theorem _action_process_payment_books (env : Env) (ctx : Ctx) (db : DB) :
    (_action_process_payment env ctx db).2.books = db.books := by
  unfold _action_process_payment
  dsimp only
  repeat' split
  all_goals rfl

theorem _action_cancel_order_books (env : Env) (ctx : Ctx) (db : DB) :
    (_action_cancel_order env ctx db).2.books = db.books := by
  unfold _action_cancel_order
  repeat' split
  all_goals rfl

/-- `APPLY_ACTION` never modifies any `Book` row. -/
theorem apply_action_books (env : Env) (st : FlowState) (db : DB) :
    (apply_action env st db).2.books = db.books := by
  unfold apply_action
  dsimp only
  split
  all_goals
    next heq =>
      have h2 := congrArg (fun x : Except String ActionResult × DB => x.2.books) heq
      dsimp only at h2
      rw [← h2]
      repeat' split
      all_goals
        first
          | rfl
          | apply _action_add_to_cart_books
          | apply _action_remove_from_cart_books
          | apply _action_checkout_books
          | apply _action_process_payment_books
          | apply _action_cancel_order_books

/-- One flow run leaves the books of both session snapshots among the
initial snapshots' books. -/
theorem run_flow_books (env : Env) (fn : String) (uid : Nat) (q : String)
    (params : Params) (s : Session) :
    ((run_flow env fn uid q params s).2.current.books = s.current.books ∨
     (run_flow env fn uid q params s).2.current.books = s.committed.books) ∧
    ((run_flow env fn uid q params s).2.committed.books = s.committed.books ∨
     (run_flow env fn uid q params s).2.committed.books = s.current.books) := by
  unfold run_flow
  dsimp only
  by_cases hni : (validate_input { user_id := uid, function_name := fn, query := q, params := params : FlowState }).needs_input
  · rw [if_pos hni]
    exact ⟨Or.inl rfl, Or.inl rfl⟩
  · rw [if_neg (by simp [hni])]
    split
    · constructor
      · left
        exact apply_action_books env _ s.current
      · left
        rfl
    · unfold persist_state
      dsimp only
      split
      · constructor
        · left
          exact apply_action_books env _ s.current
        · right
          exact apply_action_books env _ s.current
      · exact ⟨Or.inr rfl, Or.inl rfl⟩

/-- One invocation of the flow engine, as dispatched by the
orchestrator: its environment oracle, action name, user, query and
extracted parameters. -/
structure FlowOp where
  env : Env
  function_name : String
  user_id : Nat
  query : String
  params : Params

/-- A sequence of flow-engine runs over one shared session. -/
def runOps (ops : List FlowOp) (s : Session) : Session :=
  ops.foldl (fun s op =>
    (run_flow op.env op.function_name op.user_id op.query op.params s).2) s

theorem runOps_books (ops : List FlowOp) :
    ∀ (s : Session) (B : List Book), s.current.books = B →
      s.committed.books = B →
      (runOps ops s).current.books = B ∧ (runOps ops s).committed.books = B := by
  induction ops with
  | nil =>
    intro s B h1 h2
    exact ⟨h1, h2⟩
  | cons op rest ih =>
    intro s B h1 h2
    have hstep := run_flow_books op.env op.function_name op.user_id op.query
      op.params s
    have hc : (run_flow op.env op.function_name op.user_id op.query op.params
        s).2.current.books = B := by
      rcases hstep.1 with h | h <;> rw [h] <;> assumption
    have hm : (run_flow op.env op.function_name op.user_id op.query op.params
        s).2.committed.books = B := by
      rcases hstep.2 with h | h <;> rw [h] <;> assumption
    exact ih _ B hc hm

/-- C10: no flow-engine action ever modifies any `Book` row — for every
sequence of flow runs (in particular any mix of add-to-cart, checkout
and payment operations, successful or not, under any environment
oracle) over an initially clean session, every book row of both the
pending and the committed snapshot is exactly as in the original
catalog; consequently the `add_book_to_cart` stock check always compares
against the original catalog quantity. -/
theorem C10_flow_actions_never_modify_books (ops : List FlowOp) (db : DB) :
    (runOps ops (Session.clean db)).current.books = db.books ∧
    (runOps ops (Session.clean db)).committed.books = db.books :=
  runOps_books ops (Session.clean db) db.books rfl rfl

-- ── C1 and C2: the unreachable dispatch of confirm_payment / view_cart ──────

/-- The resolver outcome for a payment-confirmation reply such as
`"sí, confirmo el pago"`: no rule pattern matches it, and it is a seeded
per-example phrase of the `confirm_payment` semantic function, so the
embedding tier returns `confirm_payment` with method `"semantic"`. -/
def confirmOracle : ResolverOracle :=
  { semantic_match := { function_name := "confirm_payment", similarity := 1, method := "semantic" } }

/-- C1 (code bug): when the intent resolver maps the query to
`confirm_payment` while the user has order 7 in `"created"` state, the
orchestrator does **not** dispatch the action to the flow engine —
`confirm_payment` is missing from `LANGGRAPH_FUNCTIONS` (and from
`DIRECT_FUNCTIONS`), although `apply_action`, `TRANSACTIONAL_ACTIONS`
and the response templates all implement it — so `handle_query` falls
through to the internal-error reply: no simulated payment is applied,
no payment row is recorded, order 7 stays `"created"`, and the session
is completely unchanged (no audit log either). -/
theorem C1_confirm_payment_never_dispatched_to_flow :
    (handle_query { payment_approved := true } confirmOracle
        "sí, confirmo el pago" 1 none
        (Session.clean { orders := [order7] })).1.response =
      "Error interno del orquestador." ∧
    (handle_query { payment_approved := true } confirmOracle
        "sí, confirmo el pago" 1 none
        (Session.clean { orders := [order7] })).1.method = "error" ∧
    (handle_query { payment_approved := true } confirmOracle
        "sí, confirmo el pago" 1 none
        (Session.clean { orders := [order7] })).2 =
      Session.clean { orders := [order7] } := by
  refine ⟨?_, ?_, ?_⟩ <;> decide

/-- The resolver outcome for a view-cart phrase such as
`"qué productos tengo"`: no rule pattern matches it, and it is a seeded
per-example phrase of the `view_cart` semantic function, so the
embedding tier returns `view_cart` with method `"semantic"`. -/
def viewCartOracle : ResolverOracle :=
  { semantic_match := { function_name := "view_cart", similarity := 1, method := "semantic" } }

/-- C2 (code bug): the one-audit-record-per-query invariant fails on the
orchestrator's fall-through path (`# Should not reach here`): a query
resolved to the seeded `view_cart` action — which is in neither dispatch
set — returns the internal-error response while writing **zero**
`ExecutionLog` rows (both session snapshots keep an empty log table). -/
theorem C2_fallthrough_path_writes_no_log :
    (handle_query { payment_approved := true } viewCartOracle
        "qué productos tengo" 1 none
        (Session.clean { books := [duneStock5] })).2.current.execution_logs = [] ∧
    (handle_query { payment_approved := true } viewCartOracle
        "qué productos tengo" 1 none
        (Session.clean { books := [duneStock5] })).2.committed.execution_logs = [] ∧
    (handle_query { payment_approved := true } viewCartOracle
        "qué productos tengo" 1 none
        (Session.clean { books := [duneStock5] })).1.response =
      "Error interno del orquestador." := by
  refine ⟨?_, ?_, ?_⟩ <;> decide

end BookStore
